import Mathlib

/-!
The scenetalk worker: incremental cook, event stream and connection registry.

A shallow embedding of `src/types.h`, `src/automation.cpp` and `src/main.cpp`.

* `std::string` is `String`, `std::vector` is `List`, `int64_t` is `Int`
  (narrowed with `toInt32` where the source passes it to an `int`); an `int` is an
  `Int` kept in range by `toInt32`.
* `std::map` is `StdMap`: the entries in increasing key order, which is the
  order in which the source iterates them.
* `float` and `double` values are only carried around, never computed with;
  they are kept as bit patterns.
* The engine SDK is not part of the repository: every SDK call the source
  makes is a field of `Engine`, over an arbitrary director state.
* `assert` is modelled for both builds: with `ndebug` it expands to nothing,
  without it a failed assertion ends the run (`none`).
* The call `std::filesystem::exists` may throw; when it does the run ends (`none`):
  the sources have no `try`. Failure to allocate memory is left out.
-/

namespace Scenetalk

/-! ## types.h -/

/-- A C `float`, kept as its bit pattern. -/
structure F32 where
  bits : Nat
  deriving DecidableEq, Repr

/-- A C `double`, kept as its bit pattern. -/
structure F64 where
  bits : Nat
  deriving DecidableEq, Repr

/-- The struct `Geometry` of types.h. The entries of `indices` are `int` values: what the
exporter stores there it first narrows with `toInt32`. -/
structure Geometry where
  points : List F32
  normals : List F32
  uvs : List F32
  colors : List F32
  indices : List Int
  deriving DecidableEq, Repr

/-- The struct `FileParameter` of types.h. -/
structure FileParameter where
  file_id : String
  file_path : String
  deriving DecidableEq, Repr

/-- The member `FileParameter::operator==`. -/
def FileParameter.eq (self other : FileParameter) : Bool :=
  self.file_id == other.file_id && self.file_path == other.file_path

/-- The member `FileParameter::operator!=`. -/
def FileParameter.ne (self other : FileParameter) : Bool :=
  !(self.eq other)

/-- The struct `RampPoint` of types.h; `interp` is the spline basis enumerator. -/
structure RampPoint where
  pos : F32
  value : F32 × F32 × F32 × F32
  interp : Nat
  deriving DecidableEq, Repr

/-- The variant `Parameter` of types.h, one constructor per alternative, in order. -/
inductive Parameter
  | int (v : Int)
  | double (v : F64)
  | string (v : String)
  | bool (v : Bool)
  | file (v : FileParameter)
  | int_array (v : List Int)
  | double_array (v : List F64)
  | string_array (v : List String)
  | ramp (v : List RampPoint)
  | file_array (v : List FileParameter)
  deriving DecidableEq, Repr

/-- A `std::map<K, V>`: its entries in iteration order, keys strictly increasing. -/
structure StdMap (K V : Type) [LT K] where
  entries : List (K × V)
  sorted : (entries.map Prod.fst).Sorted (· < ·)

namespace StdMap

variable {K V : Type} [LT K]

/-- The default-constructed map. -/
def empty : StdMap K V := ⟨[], List.sorted_nil⟩

/-- The member `size()`. -/
def size (m : StdMap K V) : Nat := m.entries.length

/-- The keys, in iteration order. -/
def keys (m : StdMap K V) : List K := m.entries.map Prod.fst

/-- The member `find(k)`: the mapped value, `none` for `end()`. -/
def find [DecidableEq K] (m : StdMap K V) (k : K) : Option V :=
  (m.entries.find? (fun e => decide (e.1 = k))).map Prod.snd

end StdMap

/-- The assignment `m[k] = v`: the entry for `k` is inserted, or replaced if present. -/
def StdMap.assign {K V : Type} [LinearOrder K] (m : StdMap K V) (k : K) (v : V) : StdMap K V :=
  ⟨m.entries.filter (fun e => decide (e.1 < k)) ++
      (k, v) :: m.entries.filter (fun e => decide (k < e.1)), by
    have hs := m.sorted
    simp only [List.Sorted, List.map_append, List.map_cons, List.pairwise_append,
      List.pairwise_cons, List.mem_map, List.mem_filter, List.mem_cons, decide_eq_true_eq]
    refine ⟨hs.sublist ((List.filter_sublist _).map _), ⟨?_, hs.sublist
      ((List.filter_sublist _).map _)⟩, ?_⟩
    · rintro a ⟨e, ⟨_, he⟩, rfl⟩
      exact he
    · rintro a ⟨e, ⟨_, he⟩, rfl⟩ b hb
      rcases hb with rfl | ⟨e', ⟨_, he'⟩, rfl⟩
      · exact he
      · exact lt_trans he he'⟩

/-- The member `erase(k)`. -/
def StdMap.erase {K V : Type} [LT K] [DecidableEq K] (m : StdMap K V) (k : K) : StdMap K V :=
  ⟨m.entries.filter (fun e => decide (e.1 ≠ k)),
    List.Pairwise.sublist ((List.filter_sublist _).map _) m.sorted⟩

/-- The algorithm `std::equal(first1, last1, first2, pred)`. The second range is read
only as far as the first one reaches; running off its end is undefined in C++ and
answers `false` here (the callers compare the sizes first). -/
def std_equal {α β : Type} (pred : α → β → Bool) : List α → List β → Bool
  | [], _ => true
  | _ :: _, [] => false
  | a :: as, b :: bs => pred a b && std_equal pred as bs

/-- The `operator==` of `std::map`: equal sizes and entries equal pairwise, where
`std::pair` compares the keys and then the values. -/
def StdMap.eq {K V : Type} [LT K] (keq : K → K → Bool) (veq : V → V → Bool)
    (a b : StdMap K V) : Bool :=
  a.size == b.size &&
    std_equal (fun x y => keq x.1 y.1 && veq x.2 y.2) a.entries b.entries

/-- The alias `ParameterSet`. -/
abbrev ParameterSet := StdMap String Parameter

/-- The enum `EOutputFormat`. -/
inductive EOutputFormat
  | INVALID
  | RAW
  | OBJ
  | GLB
  | FBX
  | USD
  deriving DecidableEq, Repr

/-- The struct `CookRequest` of types.h. -/
structure CookRequest where
  hda_file : FileParameter
  definition_index : Int
  dependencies : List FileParameter
  inputs : StdMap Int FileParameter
  parameters : ParameterSet
  format : EOutputFormat

/-- The value-initialised `CookRequest()`: empty strings and containers, zero index,
the enumerator with value zero. -/
def CookRequest.default : CookRequest :=
  { hda_file := ⟨"", ""⟩
    definition_index := 0
    dependencies := []
    inputs := StdMap.empty
    parameters := StdMap.empty
    format := EOutputFormat.INVALID }

/-- The struct `FileUploadRequest` of types.h. -/
structure FileUploadRequest where
  file_id : String
  file_path : String
  content_type : String
  content_base64 : String
  deriving DecidableEq, Repr

/-- The variant `WorkerRequest` of types.h. -/
inductive WorkerRequest
  | cook (r : CookRequest)
  | file_upload (r : FileUploadRequest)

/-! ## automation.cpp: the reuse test -/

/-- The function `can_incremental_cook` of automation.cpp. -/
def can_incremental_cook (previous current : CookRequest) : Bool :=
  if previous.hda_file.ne current.hda_file then false
  else if previous.definition_index != current.definition_index then false
  else if !(StdMap.eq (fun (a b : Int) => a == b) FileParameter.eq
      previous.inputs current.inputs) then false
  else if previous.parameters.size != current.parameters.size then false
  else
    std_equal (fun entryA entryB => entryA.1 == entryB.1)
      previous.parameters.entries current.parameters.entries

/-! ## The response stream -/

/-- The enum `AutomationState` passed to `StreamWriter::state`. -/
inductive AutomationState
  | Start
  | End
  deriving DecidableEq, Repr

/-- One event of a response stream. -/
inductive Event
  | state (s : AutomationState)
  | error (message : String)
  | geometry (geo : Geometry)
  | file (name : String) (data : List Char)
  deriving DecidableEq, Repr

/-- Modelled from the spec: the class `StreamWriter` (stream_writer.h is not among the
sources). The spec gives its contract: it emits an ordered event stream of state, error,
geometry and file events; a writer is the sequence of events written so far. -/
abbrev StreamWriter := List Event

/-- The call `writer.state(s)`. -/
def StreamWriter.state (writer : StreamWriter) (s : AutomationState) : StreamWriter :=
  writer ++ [Event.state s]

/-- The call `writer.error(message)`. -/
def StreamWriter.error (writer : StreamWriter) (message : String) : StreamWriter :=
  writer ++ [Event.error message]

/-- The call `writer.geometry(geo)`. -/
def StreamWriter.geometry (writer : StreamWriter) (geo : Geometry) : StreamWriter :=
  writer ++ [Event.geometry geo]

/-- The call `writer.file(name, data)`. -/
def StreamWriter.file (writer : StreamWriter) (name : String) (data : List Char) :
    StreamWriter :=
  writer ++ [Event.file name data]

/-! ## The engine SDK, as far as the sources call it -/

/-- A `UT_Vector3`: the components x, y, z. -/
abbrev UT_Vector3 := F32 × F32 × F32

/-- A primitive of a detail: what `getTypeId`, `getVertexCount`, `getPointOffset(i)` and
`getVertexOffset(i)` answer. Vertex `i` is `vertices[i] = (point offset, vertex offset)`. -/
structure GEO_Primitive where
  typeId : Nat
  vertices : List (Nat × Nat)

/-- The type id of polygons, `GA_PRIMPOLY`. -/
def GA_PRIMPOLY : Nat := 1

/-- A cooked detail as export reads it: the primitives in `GA_FOR_ALL_PRIMITIVES` order and
the five attribute handles, `none` for a handle that is not valid. -/
structure GU_Detail where
  primitives : List GEO_Primitive
  P : Option (Nat → UT_Vector3)
  N_point : Option (Nat → UT_Vector3)
  N_vertex : Option (Nat → UT_Vector3)
  uv_point : Option (Nat → UT_Vector3)
  uv_vertex : Option (Nat → UT_Vector3)

/-- The SDK and standard-library calls made by automation.cpp. `D` is the state of the
engine (director, libraries, node graph) together with the file system it reads, `N` is a
node pointer (`none` where the source tests for `nullptr`), `L` a library pointer. A call
that may change the engine returns the new state. -/
structure Engine (D N L : Type) where
  /-- The call `manager.findLibrary(path)`. -/
  findLibrary : D → String → Int
  /-- The call `manager.installLibrary(path)`. -/
  installLibrary : D → String → D
  /-- The call `manager.getLibrary(index)`. -/
  getLibrary : D → Int → Option L
  /-- The call `library->getNumDefinitions()`. -/
  getNumDefinitions : D → L → Int
  /-- The call `library->getDefinition(index).getName().toStdString()`. -/
  getDefinitionName : D → L → Int → String
  /-- The call `director->findNode(path)`. -/
  findNode : D → String → Option N
  /-- The call `network->findNode(name)`. -/
  findChild : D → N → String → Option N
  /-- The call `network->getNchildren()`. -/
  getNchildren : D → N → Int
  /-- The call `network->getChild(j)`. -/
  getChild : D → N → Nat → N
  /-- The call `network->createNode(type, name)`; `name` is `none` in the one-argument form. -/
  createNode : D → N → String → Option String → D × Option N
  /-- The call `node->runCreateScript()`. -/
  runCreateScript : D → N → D × Bool
  /-- The call `network->destroyNode(child)`. -/
  destroyNode : D → N → N → D
  /-- The call `node->getParent()`. -/
  getParent : D → N → N
  /-- The call `node->setInput(index, input_node)`. -/
  setInput : D → N → Int → N → D
  /-- The call `node->setInt(parm, vector_index, 0.0f, value)`. -/
  setInt : D → N → String → Nat → Int → D
  /-- The call `node->setFloat(parm, vector_index, 0.0f, value)`. -/
  setFloat : D → N → String → Nat → F64 → D
  /-- The call `node->setString(value, CH_STRING_LITERAL, parm, 0, 0.0f)`. -/
  setString : D → N → String → String → D
  /-- Whether `node->getParmPtr(parm)` is non-null. -/
  hasParm : D → N → String → Bool
  /-- The call `node->updateMultiParmFromRamp(0.0, ramp, *parm, false, PRM_AK_SET_KEY)`,
  the ramp given by the nodes added to it, in order. -/
  updateMultiParmFromRamp : D → N → String → List RampPoint → D
  /-- The call `node->cook(context)`. -/
  cook : D → N → D × Bool
  /-- The call `node->castToSOPNode()`. -/
  castToSOPNode : D → N → Option N
  /-- The call `sop->getCookedGeo(context)`. -/
  getCookedGeo : D → N → D × Option GU_Detail
  /-- Whether `GU_Detail::getSupportedFormat(".obj")` is non-null. -/
  supportsObj : D → Bool
  /-- The call `xlate->fileSave(gdp, buffer)`: `status.success()` and the buffer. -/
  fileSaveObj : D → GU_Detail → Bool × String
  /-- The call `std::filesystem::exists(path)`, the overload that throws: `none` when it
  throws `filesystem_error`, the status of the path being out of reach. -/
  fs_exists : D → String → Option Bool
  /-- The call `std::filesystem::path(path).extension().string()`. -/
  path_extension : String → String

/-- The constant `SOP_NODE_TYPE`. -/
def SOP_NODE_TYPE : String := "sop"

/-- The `assert` expression: nothing with `NDEBUG`, otherwise the condition must hold. -/
def assert_ok (ndebug : Bool) (condition : Bool) : Bool :=
  ndebug || condition

/-- The conversion of an `int64_t` argument to an `int` parameter (wrap-around modulo
`2^32` into the signed range). -/
def toInt32 (x : Int) : Int :=
  (x + 2147483648) % 4294967296 - 2147483648

/-! ### std::string helpers -/

/-- Whether `pat` begins the character sequence `s`. -/
def starts_with : List Char → List Char → Bool
  | [], _ => true
  | _ :: _, [] => false
  | p :: ps, c :: cs => p == c && starts_with ps cs

/-- Search for `pat` in `s`, whose first character has position `pos`. -/
def find_at (pat : List Char) : List Char → Nat → Option Nat
  | [], pos => if starts_with pat [] then some pos else none
  | c :: cs, pos => if starts_with pat (c :: cs) then some pos else find_at pat cs (pos + 1)

/-- The member `std::string::find(pat, pos)`; `none` is `npos`. Positions count
characters. -/
def string_find (s pat : String) (pos : Nat) : Option Nat :=
  if pos > s.data.length then none else find_at pat.data (s.data.drop pos) pos

/-- The member `std::string::substr(pos, len)`; `len = none` is the one-argument form. -/
def string_substr (s : String) (pos : Nat) (len : Option Nat) : String :=
  match len with
  | none => String.mk (s.data.drop pos)
  | some n => String.mk ((s.data.drop pos).take n)

/-! ## automation.cpp: driving the engine -/

section automation

variable {D N L : Type}

/-- The extraction of the node type from a definition name (lines 87-100 of
`install_library`): the component after the first `::`, up to the next `::` if any. -/
def node_type_of_name (name : String) : String :=
  match string_find name "::" 0 with
  | none => name
  | some first =>
    match string_find name "::" (first + 2) with
    | some last => string_substr name (first + 2) (some (last - (first + 2)))
    | none => string_substr name (first + 2) none

/-- Lines 69-102 of `install_library`: what the function does once `library_index` is
known to be non-negative. -/
def library_node_type (E : Engine D N L) (director : D) (library_index : Int)
    (definition_index : Int) (writer : StreamWriter) : String × D × StreamWriter :=
  match E.getLibrary director library_index with
  | none =>
    ("", director, writer.error ("Failed to get library at index " ++ toString library_index))
  | some library =>
    let num_definitions := E.getNumDefinitions director library
    if definition_index ≥ num_definitions then
      ("", director,
        writer.error ("Definition index out of range: " ++ toString definition_index))
    else
      (node_type_of_name (E.getDefinitionName director library definition_index),
        director, writer)

/-- The function `install_library` of automation.cpp: the node type (empty on failure),
the engine state and the writer afterwards. -/
def install_library (E : Engine D N L) (director : D) (hda_file : String)
    (definition_index : Int) (writer : StreamWriter) : String × D × StreamWriter :=
  if E.findLibrary director hda_file < 0 then
    let director₁ := E.installLibrary director hda_file
    let library_index := E.findLibrary director₁ hda_file
    if library_index < 0 then
      ("", director₁, writer.error ("Failed to install library: " ++ hda_file))
    else library_node_type E director₁ library_index definition_index writer
  else
    library_node_type E director (E.findLibrary director hda_file) definition_index writer

/-- Lines 117-126 of `create_node`: the existing `geo` network of `obj`, or a newly
created one; `none` when creating it or its create script fails. -/
def find_or_create_geo (E : Engine D N L) (director : D) (obj : N) : Option N × D :=
  match E.findChild director obj "geo" with
  | some geo => (some geo, director)
  | none =>
    match E.createNode director obj "geo" (some "geo") with
    | (director₁, none) => (none, director₁)
    | (director₁, some geo) =>
      match E.runCreateScript director₁ geo with
      | (director₂, true) => (some geo, director₂)
      | (director₂, false) => (none, director₂)

/-- The function `create_node` of automation.cpp; the outer `none` is a failed
assertion. -/
def create_node (ndebug : Bool) (E : Engine D N L) (director : D) (node_type : String)
    (writer : StreamWriter) : Option (Option N × D × StreamWriter) :=
  match E.findNode director "/obj" with
  | none => some (none, director, writer.error "Failed to find obj network")
  | some obj =>
    if assert_ok ndebug
        (E.getNchildren director obj == 0 || E.getNchildren director obj == 1) then
      match find_or_create_geo E director obj with
      | (none, director₁) => some (none, director₁, writer.error "Failed to create geo node")
      | (some geo, director₁) =>
        if assert_ok ndebug (E.getNchildren director₁ geo == 0) then
          match E.createNode director₁ geo node_type (some SOP_NODE_TYPE) with
          | (director₂, none) =>
            some (none, director₂,
              writer.error ("Failed to create node of type: " ++ node_type))
          | (director₂, some node) =>
            match E.runCreateScript director₂ node with
            | (director₃, true) => some (some node, director₃, writer)
            | (director₃, false) =>
              some (none, director₃,
                writer.error ("Failed to create node of type: " ++ node_type))
        else none
    else none

/-- The function `find_node` of automation.cpp; the outer `none` is a failed assertion. -/
def find_node (ndebug : Bool) (E : Engine D N L) (director : D) : Option (Option N) :=
  match E.findNode director "/obj" with
  | none => some none
  | some obj =>
    if assert_ok ndebug
        (E.getNchildren director obj == 0 || E.getNchildren director obj == 1) then
      match E.findChild director obj "geo" with
      | none => some none
      | some geo => some (E.findChild director geo SOP_NODE_TYPE)
    else none

/-- The lower-casing `std::transform(..., ::tolower)` of an extension. -/
def to_lower (ext : String) : String :=
  String.mk (ext.data.map Char.toLower)

/-- One importer branch of `create_input_node`: create the node of the given type, run
its create script, report a failure, otherwise configure it with `setup`. -/
def create_importer (E : Engine D N L) (director : D) (parent : N) (type path : String)
    (setup : D → N → D) (writer : StreamWriter) : Option N × D × StreamWriter :=
  match E.createNode director parent type none with
  | (director₁, none) =>
    (none, director₁, writer.error ("Failed to create " ++ type ++ " node for " ++ path))
  | (director₁, some input_node) =>
    match E.runCreateScript director₁ input_node with
    | (director₂, false) =>
      (none, director₂, writer.error ("Failed to create " ++ type ++ " node for " ++ path))
    | (director₂, true) => (some input_node, setup director₂ input_node, writer)

/-- The function `create_input_node` of automation.cpp. The outer `none` is the exception
of `std::filesystem::exists`: nothing in the sources catches it, so the process
terminates. -/
def create_input_node (E : Engine D N L) (director : D) (parent : N) (path : String)
    (writer : StreamWriter) : Option (Option N × D × StreamWriter) :=
  match E.fs_exists director path with
  | none => none
  | some false => some (none, director, writer)
  | some true =>
    let ext := to_lower (E.path_extension path)
    if ext == ".usd" || ext == ".usdz" then
      some (create_importer E director parent "usdimport" path
        (fun d n =>
          let d := E.setString d n "filepath1" path
          let d := E.setInt d n "input_unpack" 0 1
          E.setInt d n "unpack_geomtype" 0 1) writer)
    else if ext == ".obj" then
      some (create_importer E director parent "obj_importer" path
        (fun d n => E.setString d n "sObjFile" path) writer)
    else if ext == ".fbx" then
      some (create_importer E director parent "fbx_archive_import" path
        (fun d n =>
          let d := E.setString d n "sFBXFile" path
          let d := E.setInt d n "bConvertUnits" 0 1
          let d := E.setInt d n "bImportAnimation" 0 1
          let d := E.setInt d n "bImportBoneSkin" 0 1
          let d := E.setInt d n "bConvertYUp" 0 1
          let d := E.setInt d n "bUnlockGeo" 0 1
          E.setInt d n "pack" 0 1) writer)
    else if ext == ".gltf" || ext == ".glb" then
      some (create_importer E director parent "gltf" path
        (fun d n => E.setString d n "filename" path) writer)
    else some (none, director, writer)

/-- One iteration of the loop of `set_inputs`; `none` is the exception of
`create_input_node`. -/
def set_input (E : Engine D N L) (node parent : N) (acc : D × StreamWriter)
    (entry : Int × FileParameter) : Option (D × StreamWriter) :=
  let path := entry.2.file_path
  match create_input_node E acc.1 parent path acc.2 with
  | none => none
  | some (some input_node, director, writer) =>
    some (E.setInput director node entry.1 input_node, writer)
  | some (none, director, writer) =>
    match E.createNode director parent "null" none with
    | (director₁, none) =>
      some (director₁, writer.error ("Failed to create null node for " ++ path))
    | (director₁, some input_node) =>
      match E.runCreateScript director₁ input_node with
      | (director₂, false) =>
        some (director₂, writer.error ("Failed to create null node for " ++ path))
      | (director₂, true) => some (E.setInput director₂ node entry.1 input_node, writer)

/-- The loop of `set_inputs` over the inputs that remain. -/
def set_inputs_loop (E : Engine D N L) (node parent : N) :
    List (Int × FileParameter) → D × StreamWriter → Option (D × StreamWriter)
  | [], acc => some acc
  | entry :: rest, acc =>
    match set_input E node parent acc entry with
    | none => none
    | some acc₁ => set_inputs_loop E node parent rest acc₁

/-- The function `set_inputs` of automation.cpp; `none` is the exception of
`create_input_node`. The source hands the request's `std::map<int, FileParameter>` to a
parameter declared over strings; the string of an input is taken to be its `file_path`. -/
def set_inputs (E : Engine D N L) (director : D) (node : N)
    (inputs : StdMap Int FileParameter) (writer : StreamWriter) : Option (D × StreamWriter) :=
  set_inputs_loop E node (E.getParent director node) inputs.entries (director, writer)

/-- A loop `for (size_t i = 0; i < values.size(); ++i) body(i, values[i])` from index `i`. -/
def for_each_indexed {α : Type} (body : D → Nat → α → D) : List α → Nat → D → D
  | [], _, d => d
  | v :: vs, i, d => for_each_indexed body vs (i + 1) (body d i v)

/-- One iteration of the loop of `set_parameters`. -/
def set_parameter (E : Engine D N L) (node : N) (director : D)
    (entry : String × Parameter) : D :=
  let key := entry.1
  match entry.2 with
  | Parameter.int v => E.setInt director node key 0 v
  | Parameter.double v => E.setFloat director node key 0 v
  | Parameter.string v => E.setString director node key v
  | Parameter.bool v => E.setInt director node key 0 (if v then 1 else 0)
  | Parameter.int_array vs =>
    for_each_indexed (fun d i v => E.setInt d node key i v) vs 0 director
  | Parameter.double_array vs =>
    for_each_indexed (fun d i v => E.setFloat d node key i v) vs 0 director
  | Parameter.ramp points =>
    if E.hasParm director node key then
      E.updateMultiParmFromRamp director node key points
    else director
  | Parameter.file _ => director
  | Parameter.string_array _ => director
  | Parameter.file_array _ => director

/-- The function `set_parameters` of automation.cpp. -/
def set_parameters (E : Engine D N L) (director : D) (node : N)
    (parameters : ParameterSet) : D :=
  parameters.entries.foldl (set_parameter E node) director

/-- The body of the vertex loop of `export_geometry_raw` (lines 348-388). -/
def push_vertex (gdp : GU_Detail) (P : Nat → UT_Vector3) (geom : Geometry)
    (vertex : Nat × Nat) : Geometry :=
  let ptOff := vertex.1
  let vtxOff := vertex.2
  let pos := P ptOff
  let points := geom.points ++ [pos.1, pos.2.1, pos.2.2]
  let normals :=
    match gdp.N_point, gdp.N_vertex with
    | some handle, _ => geom.normals ++ [(handle ptOff).1, (handle ptOff).2.1, (handle ptOff).2.2]
    | none, some handle =>
      geom.normals ++ [(handle vtxOff).1, (handle vtxOff).2.1, (handle vtxOff).2.2]
    | none, none => geom.normals
  let uvs :=
    match gdp.uv_point, gdp.uv_vertex with
    | some handle, _ => geom.uvs ++ [(handle ptOff).1, (handle ptOff).2.1]
    | none, some handle => geom.uvs ++ [(handle vtxOff).1, (handle vtxOff).2.1]
    | none, none => geom.uvs
  { geom with points := points, normals := normals, uvs := uvs }

/-- The sum of two `int` values. Signed overflow, which C++ leaves undefined, is taken to
wrap around. -/
def add32 (a b : Int) : Int :=
  toInt32 (a + b)

/-- The three `push_back` calls of iteration `i` of the fan loop (lines 394-396), in
`int` arithmetic. -/
def fan_triangle32 (base_index : Int) (i : Nat) : List Int :=
  [add32 base_index 0, add32 (add32 base_index (Int.ofNat i)) 1,
    add32 (add32 base_index (Int.ofNat i)) 2]

/-- The fan loop of `export_geometry_raw` (lines 391-397): the `int` counter `i` runs from 0
while `i < num_tris`, so not at all when `num_tris` is not positive. -/
def push_fan (base_index : Int) (num_tris : Int) (indices : List Int) : List Int :=
  (List.range num_tris.toNat).foldl
    (fun (acc : List Int) (i : Nat) => acc ++ fan_triangle32 base_index i) indices

/-- The body of the primitive loop of `export_geometry_raw` (lines 334-397); `none` is a
failed assertion. `base_index` and `num_tris` are `int` variables: the `size_t` quotient
and the 64-bit vertex count are narrowed when they are stored. -/
def export_primitive (ndebug : Bool) (gdp : GU_Detail) (P : Nat → UT_Vector3)
    (geom : Geometry) (prim : GEO_Primitive) : Option Geometry :=
  if prim.typeId != GA_PRIMPOLY then some geom
  else
    let num_verts := prim.vertices.length
    if num_verts < 3 then some geom
    else
      let base_index : Int := toInt32 (Int.ofNat (geom.points.length / 3))
      if assert_ok ndebug (geom.points.length % 3 == 0) then
        let geom₁ := prim.vertices.foldl (push_vertex gdp P) geom
        let num_tris : Int := toInt32 (Int.ofNat num_verts - 2)
        some { geom₁ with indices := push_fan base_index num_tris geom₁.indices }
      else none

/-- The primitive loop of `export_geometry_raw`. -/
def export_primitives (ndebug : Bool) (gdp : GU_Detail) (P : Nat → UT_Vector3) :
    List GEO_Primitive → Geometry → Option Geometry
  | [], geom => some geom
  | prim :: rest, geom =>
    match export_primitive ndebug gdp P geom prim with
    | none => none
    | some geom₁ => export_primitives ndebug gdp P rest geom₁

/-- The function `export_geometry_raw` of automation.cpp; `none` is a failed assertion. -/
def export_geometry_raw (ndebug : Bool) (gdp : GU_Detail) (geom : Geometry)
    (writer : StreamWriter) : Option (Bool × Geometry × StreamWriter) :=
  match gdp.P with
  | none => some (false, geom, writer.error "Geometry missing point attribute")
  | some P =>
    match export_primitives ndebug gdp P gdp.primitives geom with
    | none => none
    | some geom₁ =>
      if geom₁.points.length == 0 then
        some (false, geom₁, writer.error "Geometry contains no primitives")
      else some (true, geom₁, writer)

/-- The function `export_geometry_obj` of automation.cpp. -/
def export_geometry_obj (E : Engine D N L) (director : D) (gdp : GU_Detail)
    (writer : StreamWriter) : Bool × List Char × StreamWriter :=
  if !(E.supportsObj director) then (false, [], writer.error "OBJ export not supported")
  else
    match E.fileSaveObj director gdp with
    | (false, _) => (false, [], writer.error "Failed to export OBJ to buffer")
    | (true, str) =>
      if str.data.length == 0 then (false, str.data, writer.error "Empty OBJ file")
      else (true, str.data, writer)

/-- The default-constructed `Geometry`. -/
def Geometry.empty : Geometry :=
  { points := [], normals := [], uvs := [], colors := [], indices := [] }

/-- The function `export_geometry` of automation.cpp; `none` is a failed assertion. -/
def export_geometry (ndebug : Bool) (E : Engine D N L) (director : D)
    (format : EOutputFormat) (node : N) (writer : StreamWriter) :
    Option (Bool × D × StreamWriter) :=
  match E.castToSOPNode director node with
  | none => some (false, director, writer.error "Node is not a SOP node")
  | some sop =>
    match E.getCookedGeo director sop with
    | (director₁, none) =>
      some (false, director₁, writer.error "Failed to get cooked geometry")
    | (director₁, some gdp) =>
      if format = EOutputFormat.RAW then
        match export_geometry_raw ndebug gdp Geometry.empty writer with
        | none => none
        | some (false, _, writer₁) =>
          some (false, director₁, writer₁.error "Failed to export raw geometry")
        | some (true, geo, writer₁) => some (true, director₁, writer₁.geometry geo)
      else if format = EOutputFormat.OBJ then
        match export_geometry_obj E director₁ gdp writer with
        | (false, _, writer₁) =>
          some (false, director₁, writer₁.error "Failed to export obj geometry")
        | (true, file_data, writer₁) =>
          some (true, director₁, writer₁.file "generated_model.obj" file_data)
      else some (false, director₁, writer.error "Unknown output format")

/-- The loop of `cleanup_session`: `count` children remain to be destroyed, the one
with the highest index first. -/
def destroy_children (E : Engine D N L) (geo : N) : Nat → D → D
  | 0, director => director
  | j + 1, director =>
    destroy_children E geo j (E.destroyNode director geo (E.getChild director geo j))

/-- The function `cleanup_session` of automation.cpp. -/
def cleanup_session (E : Engine D N L) (director : D) : D :=
  match E.findNode director "/obj" with
  | none => director
  | some obj =>
    match E.findChild director obj "geo" with
    | none => director
    | some geo => destroy_children E geo (E.getNchildren director geo).toNat director

/-- The class `HoudiniSession` as automation.cpp uses it: the director and the request
last applied. -/
structure HoudiniSession (D : Type) where
  m_director : D
  m_state : CookRequest

/-- A record of one call made by `cook`, with what the call returned. The log of these
records is bookkeeping of the model; it lets statements speak of which steps ran. -/
inductive Call (N : Type)
  | find_node (found : Option N)
  | cleanup_session
  | install_library (hda_file : String) (definition_index : Int) (node_type : String)
  | create_node (node_type : String) (node : Option N)
  | set_inputs (node : N) (inputs : StdMap Int FileParameter)
  | set_parameters (node : N) (parameters : ParameterSet)
  | node_cook (node : N) (ok : Bool)
  | export_geometry (format : EOutputFormat) (node : N) (ok : Bool)

/-- Whether a record is a call of `install_library`. -/
def Call.is_install_library : Call N → Bool
  | Call.install_library _ _ _ => true
  | _ => false

/-- Whether a record is a call of `create_node`. -/
def Call.is_create_node : Call N → Bool
  | Call.create_node _ _ => true
  | _ => false

/-- Whether a record is a call of `cleanup_session`. -/
def Call.is_cleanup_session : Call N → Bool
  | Call.cleanup_session => true
  | _ => false

/-- Whether a record is a call of `set_inputs`. -/
def Call.is_set_inputs : Call N → Bool
  | Call.set_inputs _ _ => true
  | _ => false

/-- What a run of `cook` leaves behind: the session, the writer, the calls it made and
its return value. -/
structure CookResult (D N : Type) where
  session : HoudiniSession D
  writer : StreamWriter
  calls : List (Call N)
  result : Bool

/-- Lines 546-568 of `cook`: once `node` is known, apply the parameters, record the
request, cook the node and export. `calls` are the calls made so far. -/
def cook_node (ndebug : Bool) (E : Engine D N L) (director : D) (node : N)
    (request : CookRequest) (writer : StreamWriter) (calls : List (Call N)) :
    Option (CookResult D N) :=
  let director₁ := set_parameters E director node request.parameters
  let calls₁ := calls ++ [Call.set_parameters node request.parameters]
  match E.cook director₁ node with
  | (director₂, false) =>
    some { session := ⟨director₂, request⟩
           writer := writer.error "Failed to cook node"
           calls := calls₁ ++ [Call.node_cook node false]
           result := false }
  | (director₂, true) =>
    match export_geometry ndebug E director₂ request.format node writer with
    | none => none
    | some (false, director₃, writer₁) =>
      some { session := ⟨director₃, request⟩
             writer := writer₁.error "Failed to export geometry"
             calls := calls₁ ++ [Call.node_cook node true,
               Call.export_geometry request.format node false]
             result := false }
    | some (true, director₃, writer₁) =>
      some { session := ⟨director₃, request⟩
             writer := writer₁
             calls := calls₁ ++ [Call.node_cook node true,
               Call.export_geometry request.format node true]
             result := true }

/-- Lines 526-546 of `cook`: the rebuild path, taken when no node is reused. The library
path handed to `install_library` is the `file_path` of `hda_file`, and the `int64_t`
index is narrowed to the `int` parameter. -/
def cook_rebuild (ndebug : Bool) (E : Engine D N L) (session : HoudiniSession D)
    (request : CookRequest) (writer : StreamWriter) (calls : List (Call N)) :
    Option (CookResult D N) :=
  let director₁ := cleanup_session E session.m_director
  let definition_index := toInt32 request.definition_index
  match install_library E director₁ request.hda_file.file_path definition_index writer with
  | (node_type, director₂, writer₁) =>
    let calls₁ := calls ++ [Call.cleanup_session,
      Call.install_library request.hda_file.file_path definition_index node_type]
    if node_type = "" then
      some { session := ⟨director₂, CookRequest.default⟩
             writer := writer₁, calls := calls₁, result := false }
    else
      match create_node ndebug E director₂ node_type writer₁ with
      | none => none
      | some (none, director₃, writer₂) =>
        some { session := ⟨director₃, CookRequest.default⟩
               writer := writer₂
               calls := calls₁ ++ [Call.create_node node_type none]
               result := false }
      | some (some node, director₃, writer₂) =>
        match set_inputs E director₃ node request.inputs writer₂ with
        | none => none
        | some (director₄, writer₃) =>
          cook_node ndebug E director₄ node request writer₃
            (calls₁ ++ [Call.create_node node_type (some node),
              Call.set_inputs node request.inputs])

/-- The function `cook` of automation.cpp; `none` is a failed assertion or the exception
of `set_inputs`. -/
def cook (ndebug : Bool) (E : Engine D N L) (session : HoudiniSession D)
    (request : CookRequest) (writer : StreamWriter) : Option (CookResult D N) :=
  if can_incremental_cook session.m_state request then
    match find_node ndebug E session.m_director with
    | none => none
    | some (some node) =>
      cook_node ndebug E session.m_director node request writer [Call.find_node (some node)]
    | some none => cook_rebuild ndebug E session request writer [Call.find_node none]
  else cook_rebuild ndebug E session request writer []

end automation

/-! ## main.cpp -/

section main

variable {D N L FC : Type}

/-- Modelled from the spec: the helpers `util::parse_request`, `util::resolve_files` and
`FileCache::add_file`, which main.cpp calls and which are not among the sources. They are
left arbitrary, except that what they write to the stream is a list of error messages:
the spec has a parse or resolution failure reported through `Error` events. `FC` is the
state of the file cache. -/
structure Helpers (FC : Type) where
  /-- The request (`none` when the call returns false) and the errors it reports. -/
  parse_request : String → Option WorkerRequest × List String
  /-- The return value, the request with its files resolved, the cache afterwards and
  the errors it reports. -/
  resolve_files : CookRequest → FC → Bool × CookRequest × FC × List String
  /-- The call `file_cache.add_file(file_path, content_base64)`. -/
  add_file : FC → String → String → FC

/-- Several `writer.error` calls in a row. -/
def StreamWriter.errors (writer : StreamWriter) (messages : List String) : StreamWriter :=
  writer ++ messages.map Event.error

/-- The function `process_message` of main.cpp; `none` is a failed assertion or the
exception of `cook`. -/
def process_message (ndebug : Bool) (E : Engine D N L) (H : Helpers FC)
    (session : HoudiniSession D) (file_cache : FC) (message : String)
    (writer : StreamWriter) : Option (HoudiniSession D × FC × StreamWriter) :=
  match H.parse_request message with
  | (none, errors) =>
    some (session, file_cache, (writer.errors errors).error "Failed to parse request")
  | (some (WorkerRequest.cook cook_req), errors) =>
    match H.resolve_files cook_req file_cache with
    | (false, _, file_cache₁, errors₁) =>
      some (session, file_cache₁,
        ((writer.errors errors).errors errors₁).error "Failed to resolve files")
    | (true, cook_req₁, file_cache₁, errors₁) =>
      match cook ndebug E session cook_req₁ ((writer.errors errors).errors errors₁) with
      | none => none
      | some r => some (r.session, file_cache₁, r.writer)
  | (some (WorkerRequest.file_upload file_upload_req), errors) =>
    some (session,
      H.add_file file_cache file_upload_req.file_path file_upload_req.content_base64,
      writer.errors errors)

/-- The enum `StreamMessageType`. -/
inductive StreamMessageType
  | ConnectionOpenClient
  | ConnectionOpenAdmin
  | Message
  | ConnectionClose
  deriving DecidableEq, Repr

/-- The struct `StreamMessage` popped from the websocket. -/
structure StreamMessage where
  type : StreamMessageType
  connection_id : Int
  message : String
  deriving DecidableEq, Repr

/-- Modelled from the spec: the class `ClientSession` (session.h is not among the
sources). The spec's connection registry maps a connection id to its `is_admin` flag,
which is the argument of the constructor `ClientSession(bool)`. -/
structure ClientSession where
  is_admin : Bool
  deriving DecidableEq, Repr

/-- The locals of `theMain` that live across iterations of its loop, and the events sent
through the websocket so far, each with the connection it was sent to. -/
structure Worker (D FC : Type) where
  file_cache : FC
  houdini_session : HoudiniSession D
  client_sessions : StdMap Int ClientSession
  websocket : List (Int × Event)

/-- One iteration of the loop of `theMain` in which `try_pop_request` delivered `message`;
`none` is a failed assertion or an exception that nothing catches, either of which ends
the process. -/
def theMain_iteration (ndebug : Bool) (E : Engine D N L) (H : Helpers FC)
    (worker : Worker D FC) (message : StreamMessage) : Option (Worker D FC) :=
  match message.type with
  | StreamMessageType.ConnectionOpenClient =>
    if assert_ok ndebug (worker.client_sessions.find message.connection_id).isNone then
      some { worker with
        client_sessions := worker.client_sessions.assign message.connection_id ⟨false⟩ }
    else none
  | StreamMessageType.ConnectionOpenAdmin =>
    if assert_ok ndebug (worker.client_sessions.find message.connection_id).isNone then
      some { worker with
        client_sessions := worker.client_sessions.assign message.connection_id ⟨true⟩ }
    else none
  | StreamMessageType.Message =>
    let writer : StreamWriter := []
    match process_message ndebug E H worker.houdini_session worker.file_cache
        message.message (writer.state AutomationState.Start) with
    | none => none
    | some (session, file_cache, writer₁) =>
      some { worker with
        houdini_session := session
        file_cache := file_cache
        websocket := worker.websocket ++
          (writer₁.state AutomationState.End).map (fun e => (message.connection_id, e)) }
  | StreamMessageType.ConnectionClose =>
    if assert_ok ndebug (worker.client_sessions.find message.connection_id).isSome then
      some { worker with client_sessions := worker.client_sessions.erase message.connection_id }
    else none

end main

/-! ## Classifying events -/

/-- Whether an event is a `Start` or `End` state event. -/
def Event.is_state : Event → Bool
  | Event.state _ => true
  | _ => false

/-- Whether an event is an `Error` event. -/
def Event.is_error : Event → Bool
  | Event.error _ => true
  | _ => false

/-- The writer `w'` is `w` followed by error events only. -/
def OnlyErrors (w w' : StreamWriter) : Prop :=
  ∃ msgs : List String, w' = w ++ msgs.map Event.error

/-! ## A small engine for concrete runs

The engine below has one library with three definitions, all of the same name, one `obj`
network (node 0), at most one `geo` network (node 1) holding at most one `sop` node
(node 2), and cooks a single triangle. No file exists; asking for a path of more than 255
characters throws. -/

/-- The state of the small engine. -/
structure DemoDirector where
  installed : Bool
  has_geo : Bool
  has_sop : Bool
  deriving DecidableEq, Repr

/-- How the small engine behaves: the name of its definitions, whether creating the
`sop` node and cooking it succeed, and whether the cooked detail has a `P` attribute. -/
structure DemoConfig where
  definition_name : String
  create_ok : Bool
  cook_ok : Bool
  P_valid : Bool
  deriving DecidableEq, Repr

/-- The detail the small engine cooks: one triangle on the points 0, 1, 2. -/
def demoDetail (P_valid : Bool) : GU_Detail :=
  { primitives := [⟨GA_PRIMPOLY, [(0, 0), (1, 1), (2, 2)]⟩]
    P := if P_valid then some (fun i => (⟨i⟩, ⟨0⟩, ⟨0⟩)) else none
    N_point := none
    N_vertex := none
    uv_point := none
    uv_vertex := none }

/-- The small engine. -/
def demoEngine (cfg : DemoConfig) : Engine DemoDirector Nat Unit where
  findLibrary d _ := if d.installed then 0 else -1
  installLibrary d _ := { d with installed := true }
  getLibrary _ i := if i = 0 then some () else none
  getNumDefinitions _ _ := 3
  getDefinitionName _ _ _ := cfg.definition_name
  findNode _ path := if path = "/obj" then some 0 else none
  findChild d parent name :=
    if parent = 0 ∧ name = "geo" ∧ d.has_geo = true then some 1
    else if parent = 1 ∧ name = "sop" ∧ d.has_sop = true then some 2
    else none
  getNchildren d n :=
    if n = 0 then (if d.has_geo then 1 else 0)
    else if n = 1 then (if d.has_sop then 1 else 0)
    else 0
  getChild _ _ _ := 2
  createNode d parent _ name :=
    if parent = 0 then ({ d with has_geo := true }, some 1)
    else if name = none then (d, some 3)
    else if cfg.create_ok then ({ d with has_sop := true }, some 2)
    else (d, none)
  runCreateScript d _ := (d, true)
  destroyNode d _ child := if child = 2 then { d with has_sop := false } else d
  getParent _ _ := 1
  setInput d _ _ _ := d
  setInt d _ _ _ _ := d
  setFloat d _ _ _ _ := d
  setString d _ _ _ := d
  hasParm _ _ _ := true
  updateMultiParmFromRamp d _ _ _ := d
  cook d _ := (d, cfg.cook_ok)
  castToSOPNode _ n := some n
  getCookedGeo d _ := (d, some (demoDetail cfg.P_valid))
  supportsObj _ := true
  fileSaveObj _ _ := (true, "v 0 0 0")
  fs_exists _ path := if path.length > 255 then none else some false
  path_extension _ := ""

/-- A configuration in which every step succeeds. -/
def demoGood : DemoConfig :=
  { definition_name := "mythica::box::1.0", create_ok := true, cook_ok := true,
    P_valid := true }

/-- The engine state at start-up: nothing installed, no node. -/
def demoFresh : DemoDirector :=
  { installed := false, has_geo := false, has_sop := false }

/-- A session at start-up. -/
def demoSession : HoudiniSession DemoDirector :=
  { m_director := demoFresh, m_state := CookRequest.default }

/-- A request for definition `index` of the library at `lib.hda`, with one parameter
`scale` of the given value. -/
def demoRequest (index : Int) (scale : Nat) (format : EOutputFormat) : CookRequest :=
  { hda_file := ⟨"h1", "lib.hda"⟩
    definition_index := index
    dependencies := []
    inputs := StdMap.empty
    parameters := ⟨[("scale", Parameter.double ⟨scale⟩)], by simp⟩
    format := format }

/-- The triangle as raw geometry. -/
def demoGeometry : Geometry :=
  { points := [⟨0⟩, ⟨0⟩, ⟨0⟩, ⟨1⟩, ⟨0⟩, ⟨0⟩, ⟨2⟩, ⟨0⟩, ⟨0⟩]
    normals := [], uvs := [], colors := [], indices := [0, 1, 2] }

/-- What the first `cook` of a RAW request for definition 0 leaves behind when every step
succeeds. -/
def demoRunA : CookResult DemoDirector Nat :=
  { session := ⟨⟨true, true, true⟩, demoRequest 0 1 EOutputFormat.RAW⟩
    writer := [Event.geometry demoGeometry]
    calls := [Call.cleanup_session, Call.install_library "lib.hda" 0 "box",
      Call.create_node "box" (some 2), Call.set_inputs 2 StdMap.empty,
      Call.set_parameters 2 (demoRequest 0 1 EOutputFormat.RAW).parameters,
      Call.node_cook 2 true, Call.export_geometry EOutputFormat.RAW 2 true]
    result := true }

/-- A configuration in which cooking the node fails. -/
def demoNoCook : DemoConfig :=
  { demoGood with cook_ok := false }

/-- A configuration in which the cooked detail has no `P` attribute. -/
def demoNoPoints : DemoConfig :=
  { demoGood with P_valid := false }

/-- A configuration whose definition name has an empty component between its `::`
separators. -/
def demoEmptyName : DemoConfig :=
  { demoGood with definition_name := "mythica::::1.0" }

/-- What `cook` of a RAW request for definition 0 leaves behind on a fresh session when
cooking the node fails. -/
def demoRunNoCook : CookResult DemoDirector Nat :=
  { session := ⟨⟨true, true, true⟩, demoRequest 0 1 EOutputFormat.RAW⟩
    writer := [Event.error "Failed to cook node"]
    calls := [Call.cleanup_session, Call.install_library "lib.hda" 0 "box",
      Call.create_node "box" (some 2), Call.set_inputs 2 StdMap.empty,
      Call.set_parameters 2 (demoRequest 0 1 EOutputFormat.RAW).parameters,
      Call.node_cook 2 false]
    result := false }

/-- Helpers for concrete runs: the message `cook` is a RAW request for definition 0,
`upload` is an upload, anything else fails to parse; every file resolves. -/
def demoHelpers : Helpers Unit where
  parse_request message :=
    if message = "cook" then
      (some (WorkerRequest.cook (demoRequest 0 1 EOutputFormat.RAW)), [])
    else if message = "upload" then
      (some (WorkerRequest.file_upload ⟨"abc", "/scene/model.usd", "model/usd", "AAAA"⟩), [])
    else (none, [])
  resolve_files request cache := (true, request, cache, [])
  add_file cache _ _ := cache

/-- A worker at start-up whose registry holds the admin connection 7. -/
def demoWorker : Worker DemoDirector Unit :=
  { file_cache := ()
    houdini_session := demoSession
    client_sessions := ⟨[(7, ⟨true⟩)], by simp⟩
    websocket := [] }

/-- The three floats the vertex loop appends to `points` for a vertex: the position of its
point. -/
def vertex_position (P : Nat → UT_Vector3) (vertex : Nat × Nat) : List F32 :=
  [(P vertex.1).1, (P vertex.1).2.1, (P vertex.1).2.2]

/-- The index triple of triangle `i` of a fan whose first vertex has index `k`. -/
def fan_triangle (k : Int) (i : Nat) : List Int :=
  [k, k + (i : Int) + 1, k + (i : Int) + 2]

/-- Whether the vertex loop appends normals: one of the two `N` handles is valid. -/
def GU_Detail.has_normals (gdp : GU_Detail) : Bool :=
  gdp.N_point.isSome || gdp.N_vertex.isSome

/-- Whether the vertex loop appends uvs: one of the two `uv` handles is valid. -/
def GU_Detail.has_uvs (gdp : GU_Detail) : Bool :=
  gdp.uv_point.isSome || gdp.uv_vertex.isSome

/-- The invariant of the primitive loop of `export_geometry_raw`: whole vertices and whole
triangles, normals and uvs are there for all vertices or for none, no colors. -/
def RawInvariant (gdp : GU_Detail) (geom : Geometry) : Prop :=
  geom.points.length % 3 = 0 ∧
  geom.indices.length % 3 = 0 ∧
  geom.normals.length = (if gdp.has_normals then geom.points.length else 0) ∧
  geom.uvs.length = (if gdp.has_uvs then 2 * (geom.points.length / 3) else 0) ∧
  geom.colors = []

/-- Every index names a vertex the geometry holds. -/
def IndicesInRange (geom : Geometry) : Prop :=
  ∀ i ∈ geom.indices, 0 ≤ i ∧ i < Int.ofNat (geom.points.length / 3)

/-- A quadrilateral on the points 3, 4, 5, 6. -/
def demoQuad : GEO_Primitive :=
  ⟨GA_PRIMPOLY, [(3, 3), (4, 4), (5, 5), (6, 6)]⟩

/-- A curve primitive (not a polygon) on four points. -/
def demoCurve : GEO_Primitive :=
  ⟨GA_PRIMPOLY + 1, [(3, 3), (4, 4), (5, 5), (6, 6)]⟩

/-- A triangle on the points 0, 1, 2. -/
def demoTriangle : GEO_Primitive :=
  ⟨GA_PRIMPOLY, [(0, 0), (1, 1), (2, 2)]⟩

/-- The vertices of a polygon that visits point 0 `2^31` times. -/
def demoHugeVertices : List (Nat × Nat) :=
  List.replicate 2147483648 (0, 0)

/-- A polygon of `2^31` vertices. -/
def demoHugePolygon : GEO_Primitive :=
  ⟨GA_PRIMPOLY, demoHugeVertices⟩

/-- A geometry that holds `2^31` vertices and no triangle. -/
def demoHuge : Geometry :=
  { points := List.replicate 6442450944 ⟨0⟩
    normals := [], uvs := [], colors := [], indices := [] }

/-- The positions of the small engine's detail: point `i` lies at `(i, 0, 0)`. -/
def demoP : Nat → UT_Vector3 :=
  fun i => (⟨i⟩, ⟨0⟩, ⟨0⟩)

/-- A detail of two polygons, the first of `2^31` vertices, the second a triangle. -/
def demoHugeDetail : GU_Detail :=
  { primitives := [demoHugePolygon, demoTriangle]
    P := some demoP
    N_point := none
    N_vertex := none
    uv_point := none
    uv_vertex := none }

/-! ## The reuse test decides the four conditions -/

theorem FileParameter_eq_iff (a b : FileParameter) : a.eq b = true ↔ a = b := by
  cases a
  cases b
  simp [FileParameter.eq]

theorem std_equal_iff_eq {α : Type} (pred : α → α → Bool)
    (hp : ∀ x y, pred x y = true ↔ x = y) :
    ∀ l₁ l₂ : List α, l₁.length = l₂.length → (std_equal pred l₁ l₂ = true ↔ l₁ = l₂)
  | [], [], _ => by simp [std_equal]
  | [], _ :: _, h => by simp at h
  | _ :: _, [], h => by simp at h
  | a :: as, b :: bs, h => by
    have hl : as.length = bs.length := by simpa using h
    simp [std_equal, hp, std_equal_iff_eq pred hp as bs hl]

theorem std_equal_key_iff {K V W : Type} [DecidableEq K] :
    ∀ (l₁ : List (K × V)) (l₂ : List (K × W)), l₁.length = l₂.length →
      (std_equal (fun entryA entryB => entryA.1 == entryB.1) l₁ l₂ = true ↔
        l₁.map Prod.fst = l₂.map Prod.fst)
  | [], [], _ => by simp [std_equal]
  | [], _ :: _, h => by simp at h
  | _ :: _, [], h => by simp at h
  | a :: as, b :: bs, h => by
    have hl : as.length = bs.length := by simpa using h
    simp [std_equal, std_equal_key_iff as bs hl]

theorem StdMap_ext_entries {K V : Type} [LT K] (a b : StdMap K V)
    (h : a.entries = b.entries) : a = b := by
  cases a
  cases b
  simp only [StdMap.mk.injEq]
  exact h

theorem StdMap_eq_iff (a b : StdMap Int FileParameter) :
    StdMap.eq (fun (x y : Int) => x == y) FileParameter.eq a b = true ↔ a = b := by
  constructor
  · intro h
    simp only [StdMap.eq, StdMap.size, Bool.and_eq_true, beq_iff_eq] at h
    apply StdMap_ext_entries
    refine (std_equal_iff_eq _ ?_ _ _ h.1).1 h.2
    intro x y
    cases x
    cases y
    simp [FileParameter_eq_iff]
  · intro h
    subst h
    simp only [StdMap.eq, StdMap.size, Bool.and_eq_true, beq_iff_eq, true_and]
    refine (std_equal_iff_eq _ ?_ _ _ rfl).2 rfl
    intro x y
    cases x
    cases y
    simp [FileParameter_eq_iff]

/-- Two maps over a linear order have the same key sequence exactly when they have
the same key set. -/
theorem StdMap_keys_eq_iff {K V W : Type} [LinearOrder K] (a : StdMap K V) (b : StdMap K W) :
    a.keys = b.keys ↔ ∀ k, k ∈ a.keys ↔ k ∈ b.keys := by
  constructor
  · intro h k
    rw [h]
  · intro h
    have ha : a.keys.Sorted (· < ·) := a.sorted
    have hb : b.keys.Sorted (· < ·) := b.sorted
    exact List.eq_of_perm_of_sorted ((List.perm_ext_iff_of_nodup ha.nodup hb.nodup).2 h) ha hb

theorem StdMap_size_eq_of_keys_eq {K V W : Type} [LT K] (a : StdMap K V) (b : StdMap K W)
    (h : a.keys = b.keys) : a.size = b.size := by
  have := congrArg List.length h
  simpa [StdMap.keys, StdMap.size] using this

/-- The reuse test in terms of the key sequences of the two parameter maps. -/
theorem can_incremental_cook_eq_true (previous current : CookRequest) :
    can_incremental_cook previous current = true ↔
      previous.hda_file = current.hda_file ∧
      previous.definition_index = current.definition_index ∧
      previous.inputs = current.inputs ∧
      previous.parameters.keys = current.parameters.keys := by
  unfold can_incremental_cook
  by_cases h1 : previous.hda_file = current.hda_file
  swap
  · have : previous.hda_file.ne current.hda_file = true := by
      simp [FileParameter.ne, ← Bool.not_eq_true, FileParameter_eq_iff, h1]
    simp [this, h1]
  have e1 : previous.hda_file.ne current.hda_file = false := by
    simp [FileParameter.ne, FileParameter_eq_iff, h1]
  by_cases h2 : previous.definition_index = current.definition_index
  swap
  · simp [e1, h2]
  by_cases h3 : previous.inputs = current.inputs
  swap
  · have : StdMap.eq (fun (a b : Int) => a == b) FileParameter.eq
        previous.inputs current.inputs = false := by
      rw [← Bool.not_eq_true, StdMap_eq_iff]
      exact h3
    simp [e1, h2, this, h3]
  have e3 : StdMap.eq (fun (a b : Int) => a == b) FileParameter.eq
      previous.inputs current.inputs = true := (StdMap_eq_iff _ _).2 h3
  by_cases h4 : previous.parameters.size = current.parameters.size
  swap
  · have : ¬ previous.parameters.keys = current.parameters.keys :=
      fun hk => h4 (StdMap_size_eq_of_keys_eq _ _ hk)
    simp [e1, h2, e3, h4, this]
  have hk := std_equal_key_iff previous.parameters.entries current.parameters.entries h4
  rw [if_neg (by simp [e1]), if_neg (by simp [h2]), if_neg (by simp [e3]),
    if_neg (by simp [h4]), hk]
  simp [h1, h2, h3, StdMap.keys]

/-- C1: `can_incremental_cook previous current` is true exactly when the two requests
have the same `hda_file` (both `file_id` and `file_path`), the same `definition_index`,
the same `inputs` map and the same set of parameter keys; and any two requests that agree
with them on these (whatever their parameter values, dependencies and output format)
get the same answer. -/
theorem can_incremental_cook_iff (previous current : CookRequest) :
    (can_incremental_cook previous current = true ↔
      (previous.hda_file.file_id = current.hda_file.file_id ∧
        previous.hda_file.file_path = current.hda_file.file_path) ∧
      previous.definition_index = current.definition_index ∧
      previous.inputs = current.inputs ∧
      (∀ k : String, k ∈ previous.parameters.keys ↔ k ∈ current.parameters.keys)) ∧
    (∀ previous' current' : CookRequest,
      previous'.hda_file = previous.hda_file → current'.hda_file = current.hda_file →
      previous'.definition_index = previous.definition_index →
      current'.definition_index = current.definition_index →
      previous'.inputs = previous.inputs → current'.inputs = current.inputs →
      (∀ k : String, k ∈ previous'.parameters.keys ↔ k ∈ previous.parameters.keys) →
      (∀ k : String, k ∈ current'.parameters.keys ↔ k ∈ current.parameters.keys) →
      can_incremental_cook previous' current' = can_incremental_cook previous current) := by
  have key : ∀ p c : CookRequest, can_incremental_cook p c = true ↔
      (p.hda_file.file_id = c.hda_file.file_id ∧ p.hda_file.file_path = c.hda_file.file_path) ∧
      p.definition_index = c.definition_index ∧ p.inputs = c.inputs ∧
      (∀ k : String, k ∈ p.parameters.keys ↔ k ∈ c.parameters.keys) := by
    intro p c
    rw [can_incremental_cook_eq_true, StdMap_keys_eq_iff]
    have : p.hda_file = c.hda_file ↔
        (p.hda_file.file_id = c.hda_file.file_id ∧
          p.hda_file.file_path = c.hda_file.file_path) := by
      cases p.hda_file
      cases c.hda_file
      simp
    rw [this]
  refine ⟨key previous current, ?_⟩
  intro p c hp hc dp dc ip ic kp kc
  rw [Bool.eq_iff_iff, key, key, hp, hc, dp, dc, ip, ic]
  simp only [kp, kc]

/-- Witness for C1: two requests for definition 0 of the same library, which differ in
the value of `scale` and in the output format. -/
theorem can_incremental_cook_iff_witness :
    can_incremental_cook (demoRequest 0 2 EOutputFormat.OBJ)
        (demoRequest 0 3 EOutputFormat.RAW) =
      can_incremental_cook (demoRequest 0 1 EOutputFormat.RAW)
        (demoRequest 0 1 EOutputFormat.RAW) :=
  (can_incremental_cook_iff (demoRequest 0 1 EOutputFormat.RAW)
    (demoRequest 0 1 EOutputFormat.RAW)).2 (demoRequest 0 2 EOutputFormat.OBJ)
    (demoRequest 0 3 EOutputFormat.RAW) rfl rfl rfl rfl rfl rfl
    (fun _ => Iff.rfl) (fun _ => Iff.rfl)

/-! ## What each step writes to the stream -/

section writer_lemmas

variable {D N L : Type}

theorem library_node_type_cases (E : Engine D N L) (d : D) (library_index : Int)
    (definition_index : Int) (w : StreamWriter) :
    ((library_node_type E d library_index definition_index w).1 = "" ∧
      ∃ msg, (library_node_type E d library_index definition_index w).2.2 =
        w ++ [Event.error msg]) ∨
    (library_node_type E d library_index definition_index w).2.2 = w := by
  unfold library_node_type
  simp only [StreamWriter.error]
  split
  · exact Or.inl ⟨rfl, _, rfl⟩
  · split
    · exact Or.inl ⟨rfl, _, rfl⟩
    · exact Or.inr rfl

theorem install_library_cases (E : Engine D N L) (d : D) (hda_file : String)
    (definition_index : Int) (w : StreamWriter) :
    ((install_library E d hda_file definition_index w).1 = "" ∧
      ∃ msg, (install_library E d hda_file definition_index w).2.2 = w ++ [Event.error msg]) ∨
    (install_library E d hda_file definition_index w).2.2 = w := by
  unfold install_library
  simp only [StreamWriter.error]
  split
  · split
    · exact Or.inl ⟨rfl, _, rfl⟩
    · exact library_node_type_cases _ _ _ _ _
  · exact library_node_type_cases _ _ _ _ _

/-- The range check of `install_library` lets every index below the number of definitions
through, negative ones included: nothing is written and the definition at that index is
read. -/
theorem library_node_type_below (E : Engine D N L) (d : D) (library_index : Int)
    (definition_index : Int) (w : StreamWriter) (library : L)
    (hlib : E.getLibrary d library_index = some library)
    (hlt : definition_index < E.getNumDefinitions d library) :
    library_node_type E d library_index definition_index w =
      (node_type_of_name (E.getDefinitionName d library definition_index), d, w) := by
  unfold library_node_type
  simp only [hlib, ge_iff_le, not_le.2 hlt, if_false]

/-- The range check of `install_library` reports every index from the number of
definitions upwards. -/
theorem library_node_type_above (E : Engine D N L) (d : D) (library_index : Int)
    (definition_index : Int) (w : StreamWriter) (library : L)
    (hlib : E.getLibrary d library_index = some library)
    (hge : E.getNumDefinitions d library ≤ definition_index) :
    library_node_type E d library_index definition_index w =
      ("", d, w ++ [Event.error
        ("Definition index out of range: " ++ toString definition_index)]) := by
  unfold library_node_type
  simp only [hlib, ge_iff_le, hge, if_true, StreamWriter.error]

theorem create_node_cases (ndebug : Bool) (E : Engine D N L) (d : D) (node_type : String)
    (w : StreamWriter) (res : Option N) (d' : D) (w' : StreamWriter)
    (h : create_node ndebug E d node_type w = some (res, d', w')) :
    (res = none ∧ ∃ msg, w' = w ++ [Event.error msg]) ∨ (res.isSome = true ∧ w' = w) := by
  unfold create_node at h
  simp only [StreamWriter.error] at h
  split at h
  · simp only [Option.some.injEq, Prod.mk.injEq] at h
    exact Or.inl ⟨h.1.symm, _, h.2.2.symm⟩
  · split at h
    · split at h
      · simp only [Option.some.injEq, Prod.mk.injEq] at h
        exact Or.inl ⟨h.1.symm, _, h.2.2.symm⟩
      · split at h
        · split at h
          · simp only [Option.some.injEq, Prod.mk.injEq] at h
            exact Or.inl ⟨h.1.symm, _, h.2.2.symm⟩
          · split at h
            · simp only [Option.some.injEq, Prod.mk.injEq] at h
              refine Or.inr ⟨?_, h.2.2.symm⟩
              rw [← h.1]
              rfl
            · simp only [Option.some.injEq, Prod.mk.injEq] at h
              exact Or.inl ⟨h.1.symm, _, h.2.2.symm⟩
        · exact absurd h (by simp)
    · exact absurd h (by simp)

theorem OnlyErrors_refl (w : StreamWriter) : OnlyErrors w w :=
  ⟨[], by simp⟩

theorem OnlyErrors_trans {w₁ w₂ w₃ : StreamWriter} (h₁ : OnlyErrors w₁ w₂)
    (h₂ : OnlyErrors w₂ w₃) : OnlyErrors w₁ w₃ := by
  obtain ⟨m₁, rfl⟩ := h₁
  obtain ⟨m₂, rfl⟩ := h₂
  exact ⟨m₁ ++ m₂, by simp⟩

theorem OnlyErrors_error (w : StreamWriter) (msg : String) : OnlyErrors w (w.error msg) :=
  ⟨[msg], by simp [StreamWriter.error]⟩

theorem create_importer_writer (E : Engine D N L) (d : D) (parent : N) (type path : String)
    (setup : D → N → D) (w : StreamWriter) :
    OnlyErrors w (create_importer E d parent type path setup w).2.2 := by
  unfold create_importer
  split
  · exact OnlyErrors_error _ _
  · split
    · exact OnlyErrors_error _ _
    · exact OnlyErrors_refl _

theorem create_input_node_writer (E : Engine D N L) (d : D) (parent : N) (path : String)
    (w : StreamWriter) (res : Option N × D × StreamWriter)
    (h : create_input_node E d parent path w = some res) : OnlyErrors w res.2.2 := by
  unfold create_input_node at h
  rcases hx : E.fs_exists d path with _ | _ | _
  · rw [hx] at h
    exact absurd h (by simp)
  · rw [hx] at h
    simp only [Option.some.injEq] at h
    subst h
    exact OnlyErrors_refl _
  · rw [hx] at h
    dsimp only at h
    split at h
    · simp only [Option.some.injEq] at h
      subst h
      exact create_importer_writer _ _ _ _ _ _ _
    · split at h
      · simp only [Option.some.injEq] at h
        subst h
        exact create_importer_writer _ _ _ _ _ _ _
      · split at h
        · simp only [Option.some.injEq] at h
          subst h
          exact create_importer_writer _ _ _ _ _ _ _
        · split at h
          · simp only [Option.some.injEq] at h
            subst h
            exact create_importer_writer _ _ _ _ _ _ _
          · simp only [Option.some.injEq] at h
            subst h
            exact OnlyErrors_refl _

theorem set_input_writer (E : Engine D N L) (node parent : N) (acc acc' : D × StreamWriter)
    (entry : Int × FileParameter) (h : set_input E node parent acc entry = some acc') :
    OnlyErrors acc.2 acc'.2 := by
  unfold set_input at h
  dsimp only at h
  rcases hc : create_input_node E acc.1 parent entry.2.file_path acc.2 with
    _ | ⟨_ | input_node, d₁, w₁⟩
  · rw [hc] at h
    exact absurd h (by simp)
  · have hw := create_input_node_writer E acc.1 parent entry.2.file_path acc.2 _ hc
    rw [hc] at h
    dsimp only at h hw
    rcases hn : E.createNode d₁ parent "null" none with ⟨d₂, _ | null_node⟩
    · rw [hn] at h
      simp only [Option.some.injEq] at h
      subst h
      exact OnlyErrors_trans hw (OnlyErrors_error _ _)
    · rw [hn] at h
      dsimp only at h
      rcases hs : E.runCreateScript d₂ null_node with ⟨d₃, _ | _⟩
      · rw [hs] at h
        simp only [Option.some.injEq] at h
        subst h
        exact OnlyErrors_trans hw (OnlyErrors_error _ _)
      · rw [hs] at h
        simp only [Option.some.injEq] at h
        subst h
        exact hw
  · have hw := create_input_node_writer E acc.1 parent entry.2.file_path acc.2 _ hc
    rw [hc] at h
    simp only [Option.some.injEq] at h
    subst h
    exact hw

theorem set_inputs_loop_writer (E : Engine D N L) (node parent : N) :
    ∀ (entries : List (Int × FileParameter)) (acc acc' : D × StreamWriter),
      set_inputs_loop E node parent entries acc = some acc' → OnlyErrors acc.2 acc'.2
  | [], acc, acc', h => by
    simp only [set_inputs_loop, Option.some.injEq] at h
    subst h
    exact OnlyErrors_refl _
  | e :: es, acc, acc', h => by
    simp only [set_inputs_loop] at h
    rcases hs : set_input E node parent acc e with _ | acc₁
    · rw [hs] at h
      exact absurd h (by simp)
    · rw [hs] at h
      exact OnlyErrors_trans (set_input_writer E node parent acc acc₁ e hs)
        (set_inputs_loop_writer E node parent es acc₁ acc' h)

theorem set_inputs_writer (E : Engine D N L) (d : D) (node : N)
    (inputs : StdMap Int FileParameter) (w : StreamWriter) (res : D × StreamWriter)
    (h : set_inputs E d node inputs w = some res) : OnlyErrors w res.2 :=
  set_inputs_loop_writer E node _ inputs.entries (d, w) res h

theorem push_vertex_points (gdp : GU_Detail) (P : Nat → UT_Vector3) :
    ∀ (vs : List (Nat × Nat)) (geom : Geometry),
      (vs.foldl (push_vertex gdp P) geom).points.length = geom.points.length + 3 * vs.length
  | [], geom => by simp
  | v :: vs, geom => by
    simp only [List.foldl_cons, List.length_cons]
    rw [push_vertex_points gdp P vs]
    simp only [push_vertex, List.length_append, List.length_cons, List.length_nil]
    omega

theorem export_primitive_some (ndebug : Bool) (gdp : GU_Detail) (P : Nat → UT_Vector3)
    (geom : Geometry) (prim : GEO_Primitive) (h : geom.points.length % 3 = 0) :
    ∃ g, export_primitive ndebug gdp P geom prim = some g ∧ g.points.length % 3 = 0 ∧
      geom.points.length ≤ g.points.length ∧
      (prim.typeId = GA_PRIMPOLY → 3 ≤ prim.vertices.length → 0 < g.points.length) := by
  unfold export_primitive
  by_cases h1 : prim.typeId = GA_PRIMPOLY
  · by_cases h2 : prim.vertices.length < 3
    · simp only [h1, bne_self_eq_false, Bool.false_eq_true, if_false, h2, if_true]
      exact ⟨geom, rfl, h, le_refl _, fun _ h3 => by omega⟩
    · simp only [h1, bne_self_eq_false, Bool.false_eq_true, if_false, h2, assert_ok, h,
        beq_self_eq_true, Bool.or_true, if_true]
      refine ⟨_, rfl, ?_, ?_, ?_⟩
      · simp only [push_vertex_points]
        omega
      · simp only [push_vertex_points]
        omega
      · intro _ h3
        simp only [push_vertex_points]
        omega
  · have h1' : (prim.typeId != GA_PRIMPOLY) = true := by simp [h1]
    simp only [h1', if_true]
    exact ⟨geom, rfl, h, le_refl _, fun h2 => absurd h2 h1⟩

theorem export_primitives_some (ndebug : Bool) (gdp : GU_Detail) (P : Nat → UT_Vector3) :
    ∀ (prims : List GEO_Primitive) (geom : Geometry), geom.points.length % 3 = 0 →
      ∃ g, export_primitives ndebug gdp P prims geom = some g ∧ g.points.length % 3 = 0 ∧
        geom.points.length ≤ g.points.length ∧
        ((∃ prim ∈ prims, prim.typeId = GA_PRIMPOLY ∧ 3 ≤ prim.vertices.length) →
          0 < g.points.length)
  | [], geom, h => ⟨geom, rfl, h, le_refl _, by simp⟩
  | prim :: rest, geom, h => by
    obtain ⟨g₁, e₁, m₁, l₁, p₁⟩ := export_primitive_some ndebug gdp P geom prim h
    obtain ⟨g₂, e₂, m₂, l₂, p₂⟩ := export_primitives_some ndebug gdp P rest g₁ m₁
    refine ⟨g₂, ?_, m₂, le_trans l₁ l₂, ?_⟩
    · simp only [export_primitives, e₁, e₂]
    · rintro ⟨q, hq, hq1, hq2⟩
      rcases List.mem_cons.1 hq with rfl | hq'
      · have := p₁ hq1 hq2
        omega
      · exact p₂ ⟨q, hq', hq1, hq2⟩

theorem export_geometry_raw_cases (ndebug : Bool) (gdp : GU_Detail) (geom : Geometry)
    (w : StreamWriter) (h : geom.points.length % 3 = 0) :
    ∃ ok g w', export_geometry_raw ndebug gdp geom w = some (ok, g, w') ∧
      ((ok = false ∧ ∃ msg, w' = w ++ [Event.error msg]) ∨ (ok = true ∧ w' = w)) := by
  unfold export_geometry_raw
  rcases hP : gdp.P with _ | P
  · exact ⟨false, geom, _, rfl, Or.inl ⟨rfl, _, rfl⟩⟩
  · obtain ⟨g, hg, _, _, _⟩ := export_primitives_some ndebug gdp P gdp.primitives geom h
    simp only [hg]
    by_cases hz : g.points.length = 0
    · simp only [hz, beq_self_eq_true, if_true]
      exact ⟨false, g, _, rfl, Or.inl ⟨rfl, _, rfl⟩⟩
    · have hz' : (g.points.length == 0) = false := by simp [hz]
      simp only [hz', Bool.false_eq_true, if_false]
      exact ⟨true, g, w, rfl, Or.inr ⟨rfl, rfl⟩⟩

theorem export_geometry_raw_valid (ndebug : Bool) (gdp : GU_Detail) (w : StreamWriter)
    (P : Nat → UT_Vector3) (hP : gdp.P = some P)
    (hprim : ∃ prim ∈ gdp.primitives, prim.typeId = GA_PRIMPOLY ∧ 3 ≤ prim.vertices.length) :
    ∃ g, export_geometry_raw ndebug gdp Geometry.empty w = some (true, g, w) ∧
      g.points ≠ [] := by
  unfold export_geometry_raw
  obtain ⟨g, hg, _, _, hpos⟩ :=
    export_primitives_some ndebug gdp P gdp.primitives Geometry.empty rfl
  have hz : (g.points.length == 0) = false := by
    have := hpos hprim
    simp only [beq_eq_false_iff_ne, ne_eq]
    omega
  simp only [hP, hg, hz, Bool.false_eq_true, if_false]
  refine ⟨g, rfl, ?_⟩
  intro hnil
  have := hpos hprim
  rw [hnil] at this
  simp at this

theorem export_geometry_obj_cases (E : Engine D N L) (d : D) (gdp : GU_Detail)
    (w : StreamWriter) :
    ((export_geometry_obj E d gdp w).1 = false ∧
      ∃ msg, (export_geometry_obj E d gdp w).2.2 = w ++ [Event.error msg]) ∨
    ((export_geometry_obj E d gdp w).1 = true ∧ (export_geometry_obj E d gdp w).2.2 = w) := by
  unfold export_geometry_obj
  by_cases h1 : E.supportsObj d = true
  · rcases hs : E.fileSaveObj d gdp with ⟨_ | _, str⟩
    · simp [h1, StreamWriter.error]
    · by_cases hz : str.length = 0
      · simp [h1, hz, StreamWriter.error]
      · simp [h1, hz]
  · simp [h1, StreamWriter.error]

/-- Every run of `export_geometry` returns; a failure writes error events only and at least
one, a success writes exactly one event, which is a geometry or a file. -/
theorem export_geometry_cases (ndebug : Bool) (E : Engine D N L) (d : D)
    (format : EOutputFormat) (node : N) (w : StreamWriter) :
    ∃ ok d' w', export_geometry ndebug E d format node w = some (ok, d', w') ∧
      ((ok = false ∧ ∃ msgs : List String, msgs ≠ [] ∧ w' = w ++ msgs.map Event.error) ∨
        (ok = true ∧ ∃ e, w' = w ++ [e] ∧ e.is_state = false ∧ e.is_error = false)) := by
  unfold export_geometry
  rcases hc : E.castToSOPNode d node with _ | sop
  · exact ⟨false, d, _, rfl, Or.inl ⟨rfl, [_], by simp, rfl⟩⟩
  · dsimp only
    rcases hg : E.getCookedGeo d sop with ⟨d₁, _ | gdp⟩
    · exact ⟨false, d₁, _, rfl, Or.inl ⟨rfl, [_], by simp, rfl⟩⟩
    · dsimp only
      by_cases hraw : format = EOutputFormat.RAW
      · simp only [hraw, if_true]
        obtain ⟨ok, g, w', hr, hcase⟩ :=
          export_geometry_raw_cases ndebug gdp Geometry.empty w rfl
        rcases hcase with ⟨rfl, msg, rfl⟩ | ⟨rfl, rfl⟩
        · simp only [hr]
          exact ⟨false, d₁, _, rfl, Or.inl ⟨rfl, [msg, "Failed to export raw geometry"],
            by simp, by simp [StreamWriter.error]⟩⟩
        · simp only [hr]
          exact ⟨true, d₁, _, rfl, Or.inr ⟨rfl, _, rfl, rfl, rfl⟩⟩
      · by_cases hobj : format = EOutputFormat.OBJ
        · have hne : ¬ EOutputFormat.OBJ = EOutputFormat.RAW := by decide
          simp only [hobj, hne, if_true, if_false]
          rcases ho : export_geometry_obj E d₁ gdp w with ⟨ok, data, w'⟩
          rcases export_geometry_obj_cases E d₁ gdp w with ⟨h1, msg, h2⟩ | ⟨h1, h2⟩
          · rw [ho] at h1 h2
            dsimp only at h1 h2
            subst h1 h2
            exact ⟨false, d₁, _, rfl, Or.inl ⟨rfl, [msg, "Failed to export obj geometry"],
              by simp, by simp [StreamWriter.error]⟩⟩
          · rw [ho] at h1 h2
            dsimp only at h1 h2
            subst h1 h2
            exact ⟨true, d₁, _, rfl, Or.inr ⟨rfl, _, rfl, rfl, rfl⟩⟩
        · simp only [hraw, hobj, if_false]
          exact ⟨false, d₁, _, rfl, Or.inl ⟨rfl, [_], by simp, rfl⟩⟩

/-! ## The outcomes of `cook` -/

/-- Once the node is known, `cook` returns: the request is recorded, the calls are
`set_parameters`, `node->cook` and, if that succeeded, `export_geometry`; a failure writes
error events only and at least one, a success writes one content event. -/
theorem cook_node_cases (ndebug : Bool) (E : Engine D N L) (d : D) (node : N)
    (request : CookRequest) (w : StreamWriter) (calls : List (Call N)) :
    ∃ r, cook_node ndebug E d node request w calls = some r ∧
      r.session.m_state = request ∧
      (∃ ok tail, r.calls = calls ++ Call.set_parameters node request.parameters ::
          Call.node_cook node ok :: tail ∧
        (tail = [] ∨ ∃ ok', tail = [Call.export_geometry request.format node ok'])) ∧
      ((r.result = false ∧ ∃ msgs : List String, msgs ≠ [] ∧
          r.writer = w ++ msgs.map Event.error) ∨
        (r.result = true ∧ ∃ e, r.writer = w ++ [e] ∧ e.is_state = false ∧
          e.is_error = false)) := by
  unfold cook_node
  dsimp only
  rcases hk : E.cook (set_parameters E d node request.parameters) node with ⟨d₂, _ | _⟩
  · refine ⟨_, rfl, rfl, ⟨false, [], by simp, Or.inl rfl⟩, Or.inl ⟨rfl, ["Failed to cook node"],
      by simp, by simp [StreamWriter.error]⟩⟩
  · dsimp only
    obtain ⟨ok, d₃, w₁, he, hcase⟩ := export_geometry_cases ndebug E d₂ request.format node w
    rcases hcase with ⟨rfl, msgs, hne, rfl⟩ | ⟨rfl, e, rfl, h1, h2⟩
    · simp only [he]
      refine ⟨_, rfl, rfl, ⟨true, _, by simp, Or.inr ⟨false, rfl⟩⟩, Or.inl ⟨rfl,
        msgs ++ ["Failed to export geometry"], by simp, by simp [StreamWriter.error]⟩⟩
    · simp only [he]
      exact ⟨_, rfl, rfl, ⟨true, _, by simp, Or.inr ⟨true, rfl⟩⟩, Or.inr ⟨rfl, e, rfl, h1, h2⟩⟩

/-- The three outcomes of the rebuild path: `install_library` gives no node type,
`create_node` gives no node, or the node is set up and cooked. -/
theorem cook_rebuild_cases (ndebug : Bool) (E : Engine D N L) (session : HoudiniSession D)
    (request : CookRequest) (w : StreamWriter) (calls : List (Call N)) (r : CookResult D N)
    (h : cook_rebuild ndebug E session request w calls = some r) :
    (r.calls = calls ++ [Call.cleanup_session, Call.install_library
        request.hda_file.file_path (toInt32 request.definition_index) ""] ∧
      r.session.m_state = CookRequest.default ∧ r.result = false ∧
      (r.writer = w ∨ ∃ msg, r.writer = w ++ [Event.error msg])) ∨
    (∃ nt msg, nt ≠ "" ∧
      r.calls = calls ++ [Call.cleanup_session, Call.install_library
        request.hda_file.file_path (toInt32 request.definition_index) nt,
        Call.create_node nt none] ∧
      r.session.m_state = CookRequest.default ∧ r.result = false ∧
      r.writer = w ++ [Event.error msg]) ∨
    (∃ nt node ok tail, ∃ msgs : List String, ∃ wtail : List Event, nt ≠ "" ∧
      r.calls = calls ++ [Call.cleanup_session, Call.install_library
        request.hda_file.file_path (toInt32 request.definition_index) nt,
        Call.create_node nt (some node), Call.set_inputs node request.inputs,
        Call.set_parameters node request.parameters, Call.node_cook node ok] ++ tail ∧
      (tail = [] ∨ ∃ ok', tail = [Call.export_geometry request.format node ok']) ∧
      r.session.m_state = request ∧
      r.writer = w ++ msgs.map Event.error ++ wtail ∧
      ((r.result = false ∧ wtail = [] ∧ msgs ≠ []) ∨
        (r.result = true ∧ ∃ e, wtail = [e] ∧ e.is_state = false ∧ e.is_error = false))) := by
  unfold cook_rebuild at h
  dsimp only at h
  have hi := install_library_cases E (cleanup_session E session.m_director)
    request.hda_file.file_path (toInt32 request.definition_index) w
  rcases hinst : install_library E (cleanup_session E session.m_director)
    request.hda_file.file_path (toInt32 request.definition_index) w with ⟨nt, d₂, w₁⟩
  rw [hinst] at hi h
  dsimp only at hi h
  by_cases hnt : nt = ""
  · subst hnt
    simp only [if_true, Option.some.injEq] at h
    subst h
    refine Or.inl ⟨rfl, rfl, rfl, ?_⟩
    rcases hi with ⟨_, msg, hw⟩ | hw
    · exact Or.inr ⟨msg, hw⟩
    · exact Or.inl hw
  · have hw : w₁ = w := by
      rcases hi with ⟨h0, _⟩ | hw
      · exact absurd h0 hnt
      · exact hw
    subst hw
    simp only [hnt, if_false] at h
    rcases hcn : create_node ndebug E d₂ nt w₁ with _ | ⟨res, d₃, w₂⟩
    · rw [hcn] at h
      exact absurd h (by simp)
    · rw [hcn] at h
      rcases create_node_cases ndebug E d₂ nt w₁ res d₃ w₂ hcn with ⟨rfl, msg, rfl⟩ | ⟨hs, rfl⟩
      · simp only [Option.some.injEq] at h
        subst h
        exact Or.inr (Or.inl ⟨nt, msg, hnt, by simp, rfl, rfl, rfl⟩)
      · obtain ⟨node, rfl⟩ := Option.isSome_iff_exists.1 hs
        dsimp only at h
        rcases hsi : set_inputs E d₃ node request.inputs w₂ with _ | ⟨d₄, w₃⟩
        · rw [hsi] at h
          exact absurd h (by simp)
        obtain ⟨msgs₁, hm₁⟩ := set_inputs_writer E d₃ node request.inputs w₂ _ hsi
        rw [hsi] at h
        dsimp only at h hm₁
        subst hm₁
        obtain ⟨r', hr', hst, ⟨ok, tail, hcalls, htail⟩, hwr⟩ :=
          cook_node_cases ndebug E d₄ node request (w₂ ++ msgs₁.map Event.error)
            (calls ++ [Call.cleanup_session, Call.install_library
              request.hda_file.file_path (toInt32 request.definition_index) nt] ++
              [Call.create_node nt (some node), Call.set_inputs node request.inputs])
        rw [hr', Option.some.injEq] at h
        subst h
        refine Or.inr (Or.inr ?_)
        rcases hwr with ⟨hres, msgs₂, hne, hw'⟩ | ⟨hres, e, hw', he1, he2⟩
        · exact ⟨nt, node, ok, tail, msgs₁ ++ msgs₂, [], hnt, by simp [hcalls], htail, hst,
            by simp [hw'], Or.inl ⟨hres, rfl, by simp [hne]⟩⟩
        · exact ⟨nt, node, ok, tail, msgs₁, [e], hnt, by simp [hcalls], htail, hst,
            by simp [hw'], Or.inr ⟨hres, e, rfl, he1, he2⟩⟩

/-- When `install_library` returns an empty node type the rebuild path ends there: `cook`
returns false with the default state, having written what `install_library` wrote. -/
theorem cook_rebuild_empty_node_type (ndebug : Bool) (E : Engine D N L)
    (session : HoudiniSession D) (request : CookRequest) (w w₁ : StreamWriter) (d₂ : D)
    (calls : List (Call N))
    (hinst : install_library E (cleanup_session E session.m_director)
      request.hda_file.file_path (toInt32 request.definition_index) w = ("", d₂, w₁)) :
    cook_rebuild ndebug E session request w calls =
      some { session := ⟨d₂, CookRequest.default⟩
             writer := w₁
             calls := calls ++ [Call.cleanup_session, Call.install_library
               request.hda_file.file_path (toInt32 request.definition_index) ""]
             result := false } := by
  unfold cook_rebuild
  simp only [hinst, if_true]

/-- The two paths of `cook`: a node is found and reused, or the rebuild path runs (after a
failed search when the reuse test passed). -/
theorem cook_cases (ndebug : Bool) (E : Engine D N L) (session : HoudiniSession D)
    (request : CookRequest) (w : StreamWriter) (r : CookResult D N)
    (h : cook ndebug E session request w = some r) :
    (∃ node, can_incremental_cook session.m_state request = true ∧
      find_node ndebug E session.m_director = some (some node) ∧
      cook_node ndebug E session.m_director node request w [Call.find_node (some node)] =
        some r) ∨
    (∃ calls : List (Call N), (calls = [] ∨ calls = [Call.find_node none]) ∧
      (can_incremental_cook session.m_state request = false ∨
        find_node ndebug E session.m_director = some none) ∧
      cook_rebuild ndebug E session request w calls = some r) := by
  unfold cook at h
  by_cases hc : can_incremental_cook session.m_state request = true
  · simp only [hc, if_true] at h
    rcases hf : find_node ndebug E session.m_director with _ | _ | node
    · rw [hf] at h
      exact absurd h (by simp)
    · rw [hf] at h
      exact Or.inr ⟨_, Or.inr rfl, Or.inr rfl, h⟩
    · rw [hf] at h
      exact Or.inl ⟨node, hc, rfl, h⟩
  · simp only [hc, if_false] at h
    exact Or.inr ⟨_, Or.inl rfl, Or.inl (by simpa using hc), h⟩

/-- What `cook` writes: error events, followed on success by exactly one content event. -/
theorem cook_writer (ndebug : Bool) (E : Engine D N L) (session : HoudiniSession D)
    (request : CookRequest) (w : StreamWriter) (r : CookResult D N)
    (h : cook ndebug E session request w = some r) :
    ∃ msgs : List String, ∃ wtail : List Event,
      r.writer = w ++ msgs.map Event.error ++ wtail ∧
      ((r.result = false ∧ wtail = []) ∨
        (r.result = true ∧ ∃ e, wtail = [e] ∧ e.is_state = false ∧ e.is_error = false)) := by
  rcases cook_cases ndebug E session request w r h with ⟨node, _, _, hn⟩ | ⟨calls, _, _, hr⟩
  · obtain ⟨r', hr', _, _, hw⟩ := cook_node_cases ndebug E session.m_director node request w
      [Call.find_node (some node)]
    rw [hr', Option.some.injEq] at hn
    subst hn
    rcases hw with ⟨hres, msgs, _, hw⟩ | ⟨hres, e, hw, h1, h2⟩
    · exact ⟨msgs, [], by simp [hw], Or.inl ⟨hres, rfl⟩⟩
    · exact ⟨[], [e], by simp [hw], Or.inr ⟨hres, e, rfl, h1, h2⟩⟩
  · rcases cook_rebuild_cases ndebug E session request w calls r hr with
      ⟨_, _, hres, hw | ⟨msg, hw⟩⟩ | ⟨nt, msg, _, _, _, hres, hw⟩ |
      ⟨nt, node, ok, tail, msgs, wtail, _, _, _, _, hw, hcase⟩
    · exact ⟨[], [], by simp [hw], Or.inl ⟨hres, rfl⟩⟩
    · exact ⟨[msg], [], by simp [hw], Or.inl ⟨hres, rfl⟩⟩
    · exact ⟨[msg], [], by simp [hw], Or.inl ⟨hres, rfl⟩⟩
    · refine ⟨msgs, wtail, hw, ?_⟩
      rcases hcase with ⟨hres, hwt, _⟩ | ⟨hres, e, hwt, h1, h2⟩
      · exact Or.inl ⟨hres, hwt⟩
      · exact Or.inr ⟨hres, e, hwt, h1, h2⟩

/-- When `cook` fails without writing anything, its last call is an `install_library`
that returned an empty node type. -/
theorem cook_silent_failure (ndebug : Bool) (E : Engine D N L) (session : HoudiniSession D)
    (request : CookRequest) (w : StreamWriter) (r : CookResult D N)
    (h : cook ndebug E session request w = some r) (hres : r.result = false)
    (hw : r.writer = w) :
    ∃ calls : List (Call N), r.calls = calls ++ [Call.install_library
      request.hda_file.file_path (toInt32 request.definition_index) ""] := by
  rcases cook_cases ndebug E session request w r h with ⟨node, _, _, hn⟩ | ⟨calls, _, _, hr⟩
  · obtain ⟨r', hr', _, _, hw'⟩ := cook_node_cases ndebug E session.m_director node request w
      [Call.find_node (some node)]
    rw [hr', Option.some.injEq] at hn
    subst hn
    rcases hw' with ⟨_, msgs, hne, hw'⟩ | ⟨hres', _⟩
    · rw [hw] at hw'
      have := congrArg List.length hw'
      simp at this
      exact absurd this hne
    · rw [hres] at hres'
      exact absurd hres' (by simp)
  · rcases cook_rebuild_cases ndebug E session request w calls r hr with
      ⟨hc, _, _, _⟩ | ⟨nt, msg, _, _, _, _, hw'⟩ |
      ⟨nt, node, ok, tail, msgs, wtail, _, _, _, _, hw', hcase⟩
    · exact ⟨calls ++ [Call.cleanup_session], by simp [hc]⟩
    · rw [hw] at hw'
      have := congrArg List.length hw'
      simp at this
    · rcases hcase with ⟨_, hwt, hne⟩ | ⟨hres', _⟩
      · rw [hw, hwt] at hw'
        have := congrArg List.length hw'
        simp at this
        exact absurd this hne
      · rw [hres] at hres'
        exact absurd hres' (by simp)

/-! ## A build with assertions returns what the build without them returns -/

end writer_lemmas

/-! ## Reuse and rebuild -/

section claims

variable {D N L FC : Type}

/-- C2: let `A` and `B` have the same `hda_file`, `definition_index` and `inputs` and the
same parameter keys, let the session state be `A` and let `find_node` return a node. Then
`cook` on `B` returns and reuses that node: its calls are `find_node`, `set_parameters` with
the parameters of `B` on that node, `node->cook` and possibly `export_geometry`, so no
`cleanup_session`, `install_library`, `create_node` or `set_inputs`, and the session state
becomes `B`. If moreover the session is what a run of `cook` on `A` left behind, and that
run created a node, then over both runs `install_library` and `create_node` are each
called exactly once. -/
theorem cook_reuses_node (ndebug : Bool) (E : Engine D N L) (session : HoudiniSession D)
    (A B : CookRequest) (w₁ : StreamWriter) (node : N)
    (hfile : A.hda_file = B.hda_file)
    (hindex : A.definition_index = B.definition_index)
    (hinputs : A.inputs = B.inputs)
    (hkeys : ∀ k : String, k ∈ A.parameters.keys ↔ k ∈ B.parameters.keys)
    (hstate : session.m_state = A)
    (hfind : find_node ndebug E session.m_director = some (some node)) :
    ∃ rB, cook ndebug E session B w₁ = some rB ∧
      (∃ ok tail, rB.calls = [Call.find_node (some node),
          Call.set_parameters node B.parameters, Call.node_cook node ok] ++ tail ∧
        (tail = [] ∨ ∃ ok', tail = [Call.export_geometry B.format node ok'])) ∧
      rB.calls.countP Call.is_cleanup_session = 0 ∧
      rB.calls.countP Call.is_install_library = 0 ∧
      rB.calls.countP Call.is_create_node = 0 ∧
      rB.calls.countP Call.is_set_inputs = 0 ∧
      rB.session.m_state = B ∧
      ∀ (session₀ : HoudiniSession D) (w₀ : StreamWriter) (rA : CookResult D N)
        (node_type : String) (created : N),
        cook ndebug E session₀ A w₀ = some rA → rA.session = session →
        Call.create_node node_type (some created) ∈ rA.calls →
        (rA.calls ++ rB.calls).countP Call.is_install_library = 1 ∧
        (rA.calls ++ rB.calls).countP Call.is_create_node = 1 := by
  have hcan : can_incremental_cook session.m_state B = true := by
    rw [hstate, can_incremental_cook_eq_true]
    exact ⟨hfile, hindex, hinputs, (StdMap_keys_eq_iff _ _).2 hkeys⟩
  obtain ⟨rB, hB, hBstate, ⟨ok, tail, hc, ht⟩, _⟩ := cook_node_cases ndebug E
    session.m_director node B w₁ [Call.find_node (some node)]
  have hcook : cook ndebug E session B w₁ = some rB := by
    unfold cook
    simp only [hcan, if_true, hfind]
    exact hB
  have hc' : rB.calls = [Call.find_node (some node),
      Call.set_parameters node B.parameters, Call.node_cook node ok] ++ tail := by
    simp [hc]
  have z1 : rB.calls.countP Call.is_cleanup_session = 0 := by
    rw [hc']
    rcases ht with rfl | ⟨ok', rfl⟩ <;> simp [Call.is_cleanup_session, List.countP_cons]
  have z2 : rB.calls.countP Call.is_install_library = 0 := by
    rw [hc']
    rcases ht with rfl | ⟨ok', rfl⟩ <;> simp [Call.is_install_library, List.countP_cons]
  have z3 : rB.calls.countP Call.is_create_node = 0 := by
    rw [hc']
    rcases ht with rfl | ⟨ok', rfl⟩ <;> simp [Call.is_create_node, List.countP_cons]
  have z4 : rB.calls.countP Call.is_set_inputs = 0 := by
    rw [hc']
    rcases ht with rfl | ⟨ok', rfl⟩ <;> simp [Call.is_set_inputs, List.countP_cons]
  refine ⟨rB, hcook, ⟨ok, tail, hc', ht⟩, z1, z2, z3, z4, hBstate, ?_⟩
  intro session₀ w₀ rA node_type created hA _ hcreated
  -- the run on `A` went through the rebuild path and set the node up
  have hAshape : rA.calls.countP Call.is_install_library = 1 ∧
      rA.calls.countP Call.is_create_node = 1 := by
    rcases cook_cases ndebug E session₀ A w₀ rA hA with ⟨n, _, _, hn⟩ | ⟨calls, hcalls, _, hr⟩
    · obtain ⟨r', hr', _, ⟨okA, tailA, hcA, htA⟩, _⟩ := cook_node_cases ndebug E
        session₀.m_director n A w₀ [Call.find_node (some n)]
      rw [hr', Option.some.injEq] at hn
      subst hn
      rw [hcA] at hcreated
      rcases htA with rfl | ⟨ok', rfl⟩ <;> simp at hcreated
    · rcases cook_rebuild_cases ndebug E session₀ A w₀ calls rA hr with
        ⟨hcA, _, _, _⟩ | ⟨nt, msg, _, hcA, _, _, _⟩ |
        ⟨nt, n, okA, tailA, msgs, wtail, _, hcA, htA, _, _, _⟩
      · rw [hcA] at hcreated
        rcases hcalls with rfl | rfl <;> simp at hcreated
      · rw [hcA] at hcreated
        rcases hcalls with rfl | rfl <;> simp at hcreated
      · refine ⟨?_, ?_⟩
        · rw [hcA]
          rcases hcalls with rfl | rfl <;> rcases htA with rfl | ⟨ok', rfl⟩ <;>
            simp [Call.is_install_library, List.countP_cons]
        · rw [hcA]
          rcases hcalls with rfl | rfl <;> rcases htA with rfl | ⟨ok', rfl⟩ <;>
            simp [Call.is_create_node, List.countP_cons]
  obtain ⟨hinst, hcreate⟩ := hAshape
  exact ⟨by rw [List.countP_append, hinst, z2], by rw [List.countP_append, hcreate, z3]⟩

/-- Witness for C2: a RAW request with `scale = 1` on a fresh session, then an OBJ request
with `scale = 2`. -/
theorem cook_reuses_node_witness :
    cook false (demoEngine demoGood) demoSession (demoRequest 0 1 EOutputFormat.RAW) [] =
      some demoRunA ∧
    find_node false (demoEngine demoGood) demoRunA.session.m_director = some (some 2) ∧
    ∃ rB, cook false (demoEngine demoGood) demoRunA.session
        (demoRequest 0 2 EOutputFormat.OBJ) [] = some rB ∧
      rB.session.m_state = demoRequest 0 2 EOutputFormat.OBJ ∧
      (demoRunA.calls ++ rB.calls).countP Call.is_install_library = 1 ∧
      (demoRunA.calls ++ rB.calls).countP Call.is_create_node = 1 :=
  ⟨rfl, rfl, by
    obtain ⟨rB, h1, _, _, _, _, _, h2, h3⟩ :=
      cook_reuses_node false (demoEngine demoGood) demoRunA.session
        (demoRequest 0 1 EOutputFormat.RAW) (demoRequest 0 2 EOutputFormat.OBJ) [] 2
        rfl rfl rfl (by simp [demoRequest, StdMap.keys]) rfl rfl
    obtain ⟨h4, h5⟩ := h3 demoSession [] demoRunA "box" 2 rfl rfl (by simp [demoRunA])
    exact ⟨rB, h1, h2, h4, h5⟩⟩

/-- The four ways `process_message` can go: the parse fails, the request is an upload, the
files do not resolve, or `cook` runs. -/
theorem process_message_cases (ndebug : Bool) (E : Engine D N L) (H : Helpers FC)
    (session : HoudiniSession D) (file_cache : FC) (message : String) (w : StreamWriter)
    (res : HoudiniSession D × FC × StreamWriter)
    (h : process_message ndebug E H session file_cache message w = some res) :
    (∃ errors, H.parse_request message = (none, errors) ∧
      res.2.2 = (w.errors errors).error "Failed to parse request") ∨
    (∃ req errors, H.parse_request message = (some (WorkerRequest.file_upload req), errors) ∧
      res.2.2 = w.errors errors) ∨
    (∃ req errors req₁ cache₁ errors₁,
      H.parse_request message = (some (WorkerRequest.cook req), errors) ∧
      H.resolve_files req file_cache = (false, req₁, cache₁, errors₁) ∧
      res.2.2 = ((w.errors errors).errors errors₁).error "Failed to resolve files") ∨
    (∃ req errors req₁ cache₁ errors₁ r,
      H.parse_request message = (some (WorkerRequest.cook req), errors) ∧
      H.resolve_files req file_cache = (true, req₁, cache₁, errors₁) ∧
      cook ndebug E session req₁ ((w.errors errors).errors errors₁) = some r ∧
      res = (r.session, cache₁, r.writer)) := by
  unfold process_message at h
  rcases hp : H.parse_request message with ⟨_ | _ | req, errors⟩
  · rw [hp] at h
    simp only [Option.some.injEq] at h
    subst h
    exact Or.inl ⟨errors, rfl, rfl⟩
  · next req =>
    rw [hp] at h
    dsimp only at h
    rcases hr : H.resolve_files req file_cache with ⟨_ | _, req₁, cache₁, errors₁⟩
    · rw [hr] at h
      simp only [Option.some.injEq] at h
      subst h
      exact Or.inr (Or.inr (Or.inl ⟨req, errors, req₁, cache₁, errors₁, rfl, hr, rfl⟩))
    · rw [hr] at h
      dsimp only at h
      rcases hc : cook ndebug E session req₁ ((w.errors errors).errors errors₁) with _ | r
      · rw [hc] at h
        exact absurd h (by simp)
      · rw [hc] at h
        simp only [Option.some.injEq] at h
        subst h
        exact Or.inr (Or.inr (Or.inr ⟨req, errors, req₁, cache₁, errors₁, r, rfl, hr, hc,
          rfl⟩))
  · rw [hp] at h
    simp only [Option.some.injEq] at h
    subst h
    exact Or.inr (Or.inl ⟨req, errors, rfl, rfl⟩)

/-- C5, as stated, fails: when `node->cook` fails, `cook` returns false with the failed
request recorded as the session state, which is not the default request. -/
theorem cook_failure_keeps_request :
    ∃ r, cook false (demoEngine demoNoCook) demoSession
        (demoRequest 0 1 EOutputFormat.RAW) [] = some r ∧
      r.result = false ∧ r.writer = [Event.error "Failed to cook node"] ∧
      r.session.m_state = demoRequest 0 1 EOutputFormat.RAW ∧
      r.session.m_state ≠ CookRequest.default :=
  ⟨demoRunNoCook, rfl, rfl, rfl, rfl, fun h => by
    have h' := congrArg (fun c => c.hda_file.file_id) h
    revert h'
    decide⟩

/-- C5, amended: when `cook` returns false, the session state is the default request if
the run ended before `node->cook` was called (that is, in `install_library` or in
`create_node`), and it is the failed request if `node->cook` was called (the failure is
that of `node->cook` or of `export_geometry`). -/
theorem cook_failure_state (ndebug : Bool) (E : Engine D N L) (session : HoudiniSession D)
    (request : CookRequest) (w : StreamWriter) (r : CookResult D N)
    (h : cook ndebug E session request w = some r) (hfail : r.result = false) :
    ((∃ node ok, Call.node_cook node ok ∈ r.calls) → r.session.m_state = request) ∧
    ((¬ ∃ node ok, Call.node_cook node ok ∈ r.calls) →
      r.session.m_state = CookRequest.default ∧
      ((∃ calls p i, r.calls = calls ++ [Call.install_library p i ""]) ∨
        (∃ calls nt, r.calls = calls ++ [Call.create_node nt none]))) := by
  rcases cook_cases ndebug E session request w r h with ⟨node, _, _, hn⟩ | ⟨calls, hcalls, _, hr⟩
  · obtain ⟨r', hr', hst, ⟨ok, tail, hc, _⟩, _⟩ := cook_node_cases ndebug E
      session.m_director node request w [Call.find_node (some node)]
    rw [hr', Option.some.injEq] at hn
    subst hn
    refine ⟨fun _ => hst, fun hno => absurd ⟨node, ok, ?_⟩ hno⟩
    rw [hc]
    simp
  · rcases cook_rebuild_cases ndebug E session request w calls r hr with
      ⟨hc, hs, _, _⟩ | ⟨nt, msg, _, hc, hs, _, _⟩ |
      ⟨nt, node, ok, tail, msgs, wtail, _, hc, _, hs, _, _⟩
    · refine ⟨?_, fun _ => ⟨hs, Or.inl ⟨calls ++ [Call.cleanup_session],
        request.hda_file.file_path, toInt32 request.definition_index, by simp [hc]⟩⟩⟩
      rintro ⟨n, ok, hmem⟩
      rw [hc] at hmem
      rcases hcalls with rfl | rfl <;> simp at hmem
    · refine ⟨?_, fun _ => ⟨hs, Or.inr ⟨calls ++ [Call.cleanup_session,
        Call.install_library request.hda_file.file_path (toInt32 request.definition_index) nt],
        nt, by simp [hc]⟩⟩⟩
      rintro ⟨n, ok, hmem⟩
      rw [hc] at hmem
      rcases hcalls with rfl | rfl <;> simp at hmem
    · refine ⟨fun _ => hs, fun hno => absurd ⟨node, ok, ?_⟩ hno⟩
      rw [hc]
      simp

/-- Witness for C5: the run in which cooking the node fails. -/
theorem cook_failure_state_witness :
    cook false (demoEngine demoNoCook) demoSession (demoRequest 0 1 EOutputFormat.RAW) [] =
      some demoRunNoCook ∧
    demoRunNoCook.result = false ∧
    ((∃ node ok, Call.node_cook node ok ∈ demoRunNoCook.calls) →
      demoRunNoCook.session.m_state = demoRequest 0 1 EOutputFormat.RAW) ∧
    ((¬ ∃ node ok, Call.node_cook node ok ∈ demoRunNoCook.calls) →
      demoRunNoCook.session.m_state = CookRequest.default ∧
      ((∃ calls p i, demoRunNoCook.calls = calls ++ [Call.install_library p i ""]) ∨
        (∃ calls nt, demoRunNoCook.calls = calls ++ [Call.create_node nt none]))) :=
  ⟨rfl, rfl, cook_failure_state false (demoEngine demoNoCook) demoSession
    (demoRequest 0 1 EOutputFormat.RAW) [] demoRunNoCook rfl rfl⟩

/-- C6 on concrete inputs, against a library of three definitions. Index 5 is reported as
out of range and leaves the default state. Index -1 passes the range check: no error is
written, the definition at -1 is read and the cook goes on to succeed. Index 2^32 reaches
the `int` parameter as 0 and is served as definition 0. -/
theorem definition_index_range_check :
    (cook false (demoEngine demoGood) demoSession (demoRequest 5 1 EOutputFormat.RAW) []).map
        (fun r => (r.result, r.writer, r.session.m_state.hda_file,
          r.calls.countP Call.is_create_node)) =
      some (false, [Event.error "Definition index out of range: 5"], ⟨"", ""⟩, 0) ∧
    install_library (demoEngine demoGood) demoFresh "lib.hda" (toInt32 (-1)) [] =
      ("box", ⟨true, false, false⟩, []) ∧
    (cook false (demoEngine demoGood) demoSession
        (demoRequest (-1) 1 EOutputFormat.RAW) []).map
        (fun r => (r.result, r.writer, r.session.m_state.definition_index)) =
      some (true, [Event.geometry demoGeometry], -1) ∧
    toInt32 4294967296 = 0 ∧
    (cook false (demoEngine demoGood) demoSession
        (demoRequest 4294967296 1 EOutputFormat.RAW) []).map
        (fun r => (r.result, r.writer, r.session.m_state.definition_index)) =
      some (true, [Event.geometry demoGeometry], 4294967296) := by
  refine ⟨?_, ?_, ?_, ?_, ?_⟩ <;> decide

/-- C8 on a concrete input: a definition named `mythica::::1.0` has the empty node type,
`install_library` returns it without writing, and `cook` returns false having written no
event at all. -/
theorem cook_fails_silently :
    node_type_of_name "mythica::::1.0" = "" ∧
    install_library (demoEngine demoEmptyName) demoFresh "lib.hda" 0 [] =
      ("", ⟨true, false, false⟩, []) ∧
    (cook false (demoEngine demoEmptyName) demoSession
        (demoRequest 0 1 EOutputFormat.RAW) []).map (fun r => (r.result, r.writer)) =
      some (false, []) := by
  refine ⟨?_, ?_, ?_⟩ <;> decide

/-- C7, as stated, fails: a RAW request whose cooked detail has no `P` attribute fails in
the export and its stream carries three `Error` events between `Start` and `End`. -/
theorem export_failure_three_errors :
    (cook false (demoEngine demoNoPoints) demoSession
        (demoRequest 0 1 EOutputFormat.RAW) []).map (fun r => r.result) = some false ∧
    (theMain_iteration false (demoEngine demoNoPoints) demoHelpers demoWorker
        ⟨StreamMessageType.Message, 7, "cook"⟩).map (fun worker => worker.websocket) =
      some [(7, Event.state AutomationState.Start),
        (7, Event.error "Geometry missing point attribute"),
        (7, Event.error "Failed to export raw geometry"),
        (7, Event.error "Failed to export geometry"),
        (7, Event.state AutomationState.End)] := by
  constructor <;> decide

/-- C7, amended: for a message whose processing fails (the parse fails, the files do not
resolve, or `cook` returns false) the stream is `Start`, then `Error` events only, then
`End`. There is at least one `Error` event, except possibly when `cook` ended at an
`install_library` that returned an empty node type. -/
theorem failed_message_stream (ndebug : Bool) (E : Engine D N L) (H : Helpers FC)
    (worker worker' : Worker D FC) (message : StreamMessage)
    (htype : message.type = StreamMessageType.Message)
    (h : theMain_iteration ndebug E H worker message = some worker')
    (hfail : (∃ errors, H.parse_request message.message = (none, errors)) ∨
      (∃ req errors req₁ cache₁ errors₁,
        H.parse_request message.message = (some (WorkerRequest.cook req), errors) ∧
        H.resolve_files req worker.file_cache = (false, req₁, cache₁, errors₁)) ∨
      (∃ req errors req₁ cache₁ errors₁ r,
        H.parse_request message.message = (some (WorkerRequest.cook req), errors) ∧
        H.resolve_files req worker.file_cache = (true, req₁, cache₁, errors₁) ∧
        cook ndebug E worker.houdini_session req₁
          (((StreamWriter.state [] AutomationState.Start).errors errors).errors errors₁) =
            some r ∧
        r.result = false)) :
    ∃ msgs : List String,
      worker'.websocket = worker.websocket ++
        (Event.state AutomationState.Start :: msgs.map Event.error ++
          [Event.state AutomationState.End]).map (fun e => (message.connection_id, e)) ∧
      (msgs = [] → ∃ req errors req₁ cache₁ errors₁ r calls,
        H.parse_request message.message = (some (WorkerRequest.cook req), errors) ∧
        H.resolve_files req worker.file_cache = (true, req₁, cache₁, errors₁) ∧
        cook ndebug E worker.houdini_session req₁
          (((StreamWriter.state [] AutomationState.Start).errors errors).errors errors₁) =
            some r ∧
        r.calls = calls ++ [Call.install_library req₁.hda_file.file_path
          (toInt32 req₁.definition_index) ""]) := by
  unfold theMain_iteration at h
  simp only [htype] at h
  rcases hp : process_message ndebug E H worker.houdini_session worker.file_cache
    message.message (StreamWriter.state [] AutomationState.Start) with _ | ⟨s', c', w'⟩
  · rw [hp] at h
    exact absurd h (by simp)
  rw [hp] at h
  simp only [Option.some.injEq] at h
  subst h
  rcases process_message_cases ndebug E H _ _ _ _ _ hp with
    ⟨errors, _, hw⟩ | ⟨req, errors, hparse, _⟩ |
    ⟨req, errors, req₁, cache₁, errors₁, _, _, hw⟩ |
    ⟨req, errors, req₁, cache₁, errors₁, r, hparse, hresolve, hc, hres⟩
  · dsimp only at hw
    exact ⟨errors ++ ["Failed to parse request"],
      by simp [hw, StreamWriter.state, StreamWriter.errors, StreamWriter.error],
      fun hnil => absurd hnil (by simp)⟩
  · rcases hfail with ⟨e, he⟩ | ⟨q, e, q₁, c₁, e₁, he, _⟩ | ⟨q, e, q₁, c₁, e₁, r, he, _⟩ <;>
      rw [hparse] at he <;> simp at he
  · dsimp only at hw
    exact ⟨errors ++ errors₁ ++ ["Failed to resolve files"],
      by simp [hw, StreamWriter.state, StreamWriter.errors, StreamWriter.error],
      fun hnil => absurd hnil (by simp)⟩
  · have hfalse : r.result = false := by
      rcases hfail with ⟨e, he⟩ | ⟨q, e, q₁, c₁, e₁, he, hr⟩ | ⟨q, e, q₁, c₁, e₁, r₂, he, hr, hc₂, hf⟩
      · rw [hparse] at he
        simp at he
      · rw [hparse] at he
        simp only [Prod.mk.injEq, Option.some.injEq, WorkerRequest.cook.injEq] at he
        obtain ⟨rfl, rfl⟩ := he
        rw [hresolve] at hr
        simp at hr
      · rw [hparse] at he
        simp only [Prod.mk.injEq, Option.some.injEq, WorkerRequest.cook.injEq] at he
        obtain ⟨rfl, rfl⟩ := he
        rw [hresolve] at hr
        simp only [Prod.mk.injEq, true_and] at hr
        obtain ⟨rfl, rfl, rfl⟩ := hr
        rw [hc, Option.some.injEq] at hc₂
        rw [hc₂]
        exact hf
    obtain ⟨msgs, wtail, hw, hcase⟩ := cook_writer ndebug E _ req₁ _ r hc
    have hwt : wtail = [] := by
      rcases hcase with ⟨_, hwt⟩ | ⟨ht, _⟩
      · exact hwt
      · rw [hfalse] at ht
        exact absurd ht (by simp)
    subst hwt
    simp only [Prod.mk.injEq] at hres
    obtain ⟨_, _, rfl⟩ := hres
    refine ⟨errors ++ errors₁ ++ msgs,
      by simp [hw, StreamWriter.state, StreamWriter.errors], ?_⟩
    intro hnil
    simp only [List.append_eq_nil] at hnil
    obtain ⟨⟨rfl, rfl⟩, rfl⟩ := hnil
    have hw' : r.writer = ((StreamWriter.state [] AutomationState.Start).errors []).errors [] := by
      simpa using hw
    obtain ⟨calls, hcalls⟩ := cook_silent_failure ndebug E _ req₁ _ r hc hfalse hw'
    exact ⟨req, [], req₁, cache₁, [], r, calls, hparse, hresolve, hc, hcalls⟩

/-- Witness for C7: a message that does not parse. -/
theorem failed_message_stream_witness :
    theMain_iteration false (demoEngine demoGood) demoHelpers demoWorker
        ⟨StreamMessageType.Message, 7, "garbage"⟩ =
      some { demoWorker with websocket := [(7, Event.state AutomationState.Start),
        (7, Event.error "Failed to parse request"), (7, Event.state AutomationState.End)] } ∧
    ∃ msgs : List String,
      [((7 : Int), Event.state AutomationState.Start),
        (7, Event.error "Failed to parse request"), (7, Event.state AutomationState.End)] =
        demoWorker.websocket ++
          (Event.state AutomationState.Start :: msgs.map Event.error ++
            [Event.state AutomationState.End]).map (fun e => ((7 : Int), e)) ∧
      (msgs = [] → ∃ req errors req₁ cache₁ errors₁ r calls,
        demoHelpers.parse_request "garbage" = (some (WorkerRequest.cook req), errors) ∧
        demoHelpers.resolve_files req demoWorker.file_cache = (true, req₁, cache₁, errors₁) ∧
        cook false (demoEngine demoGood) demoWorker.houdini_session req₁
          (((StreamWriter.state [] AutomationState.Start).errors errors).errors errors₁) =
            some r ∧
        r.calls = calls ++ [Call.install_library req₁.hda_file.file_path
          (toInt32 req₁.definition_index) ""]) :=
  ⟨rfl, failed_message_stream false (demoEngine demoGood) demoHelpers demoWorker
    { demoWorker with websocket := [(7, Event.state AutomationState.Start),
      (7, Event.error "Failed to parse request"), (7, Event.state AutomationState.End)] }
    ⟨StreamMessageType.Message, 7, "garbage"⟩ rfl rfl (Or.inl ⟨[], rfl⟩)⟩

/-! ## The connection registry -/

theorem find?_congr_of_mem {α : Type} (p q : α → Bool) :
    ∀ l : List α, (∀ x ∈ l, p x = q x) → l.find? p = l.find? q
  | [], _ => rfl
  | a :: as, h => by
    have ha : p a = q a := h a (List.mem_cons_self _ _)
    have hrest := find?_congr_of_mem p q as (fun x hx => h x (List.mem_cons_of_mem _ hx))
    simp only [List.find?_cons, ha, hrest]

theorem StdMap_find_assign_self {V : Type} (m : StdMap Int V) (k : Int) (v : V) :
    (m.assign k v).find k = some v := by
  have hnone : (m.entries.filter (fun e => decide (e.1 < k))).find?
      (fun e => decide (e.1 = k)) = none := by
    rw [List.find?_eq_none]
    intro x hx
    have hlt : x.1 < k := by simpa using (List.mem_filter.1 hx).2
    simpa using ne_of_lt hlt
  simp [StdMap.find, StdMap.assign, List.find?_append, hnone]

theorem StdMap_find_assign_other {V : Type} (m : StdMap Int V) (k k' : Int) (v : V)
    (hne : k' ≠ k) : (m.assign k v).find k' = m.find k' := by
  have hhead : decide (k = k') = false := by simpa using fun h : k = k' => hne h.symm
  simp only [StdMap.find, StdMap.assign, List.find?_append, List.find?_cons, hhead,
    List.find?_filter]
  congr 1
  rcases lt_or_gt_of_ne hne with hlt | hgt
  · have h1 : m.entries.find?
        (fun a => decide (decide (a.1 < k) = true ∧ decide (a.1 = k') = true)) =
        m.entries.find? (fun a => decide (a.1 = k')) := by
      apply find?_congr_of_mem
      intro x _
      by_cases hx : x.1 = k'
      · simp [hx, hlt]
      · simp [hx]
    have h2 : m.entries.find?
        (fun a => decide (decide (k < a.1) = true ∧ decide (a.1 = k') = true)) = none := by
      rw [List.find?_eq_none]
      intro x _
      by_cases hx : x.1 = k'
      · simp only [hx, decide_eq_true_eq, and_true, not_lt]
        omega
      · simp [hx]
    rw [h1, h2]
    cases m.entries.find? (fun a => decide (a.1 = k')) <;> rfl
  · have h1 : m.entries.find?
        (fun a => decide (decide (a.1 < k) = true ∧ decide (a.1 = k') = true)) = none := by
      rw [List.find?_eq_none]
      intro x _
      by_cases hx : x.1 = k'
      · simp only [hx, decide_eq_true_eq, and_true, not_lt]
        omega
      · simp [hx]
    have h2 : m.entries.find?
        (fun a => decide (decide (k < a.1) = true ∧ decide (a.1 = k') = true)) =
        m.entries.find? (fun a => decide (a.1 = k')) := by
      apply find?_congr_of_mem
      intro x _
      by_cases hx : x.1 = k'
      · simp [hx, hgt]
      · simp [hx]
    rw [h1, h2]
    rfl

theorem StdMap_erase_of_find_none {V : Type} (m : StdMap Int V) (k : Int)
    (h : m.find k = none) : m.erase k = m := by
  apply StdMap_ext_entries
  simp only [StdMap.erase]
  rw [List.filter_eq_self]
  intro x hx
  simp only [StdMap.find, Option.map_eq_none', List.find?_eq_none] at h
  simpa using h x hx

/-- C9, as stated, fails: connection 7 is registered as an admin connection; a
`ConnectionOpenClient` event for 7 replaces its entry by a non-admin one in a build without
assertions, and aborts the worker in a build with assertions, as does a `ConnectionClose`
for the unregistered connection 8. -/
theorem duplicate_open_overwrites_or_aborts :
    demoWorker.client_sessions.find 7 = some ⟨true⟩ ∧
    (theMain_iteration true (demoEngine demoGood) demoHelpers demoWorker
        ⟨StreamMessageType.ConnectionOpenClient, 7, ""⟩).map
        (fun worker => worker.client_sessions.find 7) = some (some ⟨false⟩) ∧
    (theMain_iteration false (demoEngine demoGood) demoHelpers demoWorker
        ⟨StreamMessageType.ConnectionOpenClient, 7, ""⟩).isNone = true ∧
    demoWorker.client_sessions.find 8 = none ∧
    (theMain_iteration false (demoEngine demoGood) demoHelpers demoWorker
        ⟨StreamMessageType.ConnectionClose, 8, ""⟩).isNone = true := by
  refine ⟨?_, ?_, ?_, ?_, ?_⟩ <;> decide

/-- C9, amended: in a build without assertions, an open event for a registered connection
replaces its entry by a new one whose `is_admin` flag is that of the event, leaving the
other entries alone, and a `ConnectionClose` for an unregistered connection leaves the
worker unchanged; the loop goes on in both cases. In a build with assertions either event
fails its assertion and aborts the worker. -/
theorem registry_violations (E : Engine D N L) (H : Helpers FC) (worker : Worker D FC)
    (message : StreamMessage) :
    (∀ (admin : Bool) (existing : ClientSession),
      message.type = (if admin then StreamMessageType.ConnectionOpenAdmin
        else StreamMessageType.ConnectionOpenClient) →
      worker.client_sessions.find message.connection_id = some existing →
      theMain_iteration false E H worker message = none ∧
      ∃ worker', theMain_iteration true E H worker message = some worker' ∧
        worker'.client_sessions.find message.connection_id = some ⟨admin⟩ ∧
        ∀ other : Int, other ≠ message.connection_id →
          worker'.client_sessions.find other = worker.client_sessions.find other) ∧
    (message.type = StreamMessageType.ConnectionClose →
      worker.client_sessions.find message.connection_id = none →
      theMain_iteration false E H worker message = none ∧
      theMain_iteration true E H worker message = some worker) := by
  constructor
  · intro admin existing htype hfind
    cases admin
    · simp only [Bool.false_eq_true, if_false] at htype
      refine ⟨by simp [theMain_iteration, htype, hfind, assert_ok],
        { worker with
          client_sessions := worker.client_sessions.assign message.connection_id ⟨false⟩ },
        by simp only [theMain_iteration, htype, assert_ok, Bool.true_or, if_true], ?_, ?_⟩
      · exact StdMap_find_assign_self _ _ _
      · intro other hne
        exact StdMap_find_assign_other _ _ _ _ hne
    · simp only [if_true] at htype
      refine ⟨by simp [theMain_iteration, htype, hfind, assert_ok],
        { worker with
          client_sessions := worker.client_sessions.assign message.connection_id ⟨true⟩ },
        by simp only [theMain_iteration, htype, assert_ok, Bool.true_or, if_true], ?_, ?_⟩
      · exact StdMap_find_assign_self _ _ _
      · intro other hne
        exact StdMap_find_assign_other _ _ _ _ hne
  · intro htype hfind
    refine ⟨by simp [theMain_iteration, htype, hfind, assert_ok], ?_⟩
    simp only [theMain_iteration, htype, assert_ok, Bool.true_or, if_true,
      StdMap_erase_of_find_none _ _ hfind]

/-- Witness for C9: a second open of connection 7, and a close of connection 8. -/
theorem registry_violations_witness :
    (theMain_iteration false (demoEngine demoGood) demoHelpers demoWorker
        ⟨StreamMessageType.ConnectionOpenClient, 7, ""⟩ = none ∧
      ∃ worker', theMain_iteration true (demoEngine demoGood) demoHelpers demoWorker
          ⟨StreamMessageType.ConnectionOpenClient, 7, ""⟩ = some worker' ∧
        worker'.client_sessions.find 7 = some ⟨false⟩ ∧
        ∀ other : Int, other ≠ 7 →
          worker'.client_sessions.find other = demoWorker.client_sessions.find other) ∧
    (theMain_iteration false (demoEngine demoGood) demoHelpers demoWorker
        ⟨StreamMessageType.ConnectionClose, 8, ""⟩ = none ∧
      theMain_iteration true (demoEngine demoGood) demoHelpers demoWorker
        ⟨StreamMessageType.ConnectionClose, 8, ""⟩ = some demoWorker) :=
  ⟨(registry_violations (demoEngine demoGood) demoHelpers demoWorker
      ⟨StreamMessageType.ConnectionOpenClient, 7, ""⟩).1 false ⟨true⟩ rfl (by decide),
    (registry_violations (demoEngine demoGood) demoHelpers demoWorker
      ⟨StreamMessageType.ConnectionClose, 8, ""⟩).2 rfl (by decide)⟩

/-! ## Output formats -/

/-- C10, as stated, fails: on an engine whose cooked geometry exports as RAW, a GLB
request makes `export_geometry` return false with one `Error` event and no content event;
so do FBX and USD. -/
theorem export_geometry_glb_unknown :
    export_geometry false (demoEngine demoGood) ⟨true, true, true⟩ EOutputFormat.RAW 2 [] =
      some (true, ⟨true, true, true⟩, [Event.geometry demoGeometry]) ∧
    export_geometry false (demoEngine demoGood) ⟨true, true, true⟩ EOutputFormat.GLB 2 [] =
      some (false, ⟨true, true, true⟩, [Event.error "Unknown output format"]) ∧
    export_geometry false (demoEngine demoGood) ⟨true, true, true⟩ EOutputFormat.FBX 2 [] =
      some (false, ⟨true, true, true⟩, [Event.error "Unknown output format"]) ∧
    export_geometry false (demoEngine demoGood) ⟨true, true, true⟩ EOutputFormat.USD 2 [] =
      some (false, ⟨true, true, true⟩, [Event.error "Unknown output format"]) := by
  refine ⟨?_, ?_, ?_, ?_⟩ <;> decide

/-- C10, amended: when the node is a SOP node with cooked geometry, `export_geometry`
returns true and writes exactly one `Geometry` event for RAW if the detail has a `P`
attribute and a polygon of at least three vertices; it returns true and writes exactly one
`File` event named `generated_model.obj` for OBJ if the translator exists and saves a
non-empty buffer; for GLB, FBX and USD it returns false and writes exactly one `Error`
event, `Unknown output format`. -/
theorem export_geometry_formats (ndebug : Bool) (E : Engine D N L) (d d₁ : D)
    (format : EOutputFormat) (node sop : N) (gdp : GU_Detail) (w : StreamWriter)
    (hsop : E.castToSOPNode d node = some sop)
    (hgeo : E.getCookedGeo d sop = (d₁, some gdp)) :
    (format = EOutputFormat.RAW → ∀ P, gdp.P = some P →
      (∃ prim ∈ gdp.primitives, prim.typeId = GA_PRIMPOLY ∧ 3 ≤ prim.vertices.length) →
      ∃ geo, geo.points ≠ [] ∧
        export_geometry ndebug E d format node w = some (true, d₁, w ++ [Event.geometry geo])) ∧
    (format = EOutputFormat.OBJ → E.supportsObj d₁ = true →
      ∀ str, E.fileSaveObj d₁ gdp = (true, str) → str.data ≠ [] →
      export_geometry ndebug E d format node w =
        some (true, d₁, w ++ [Event.file "generated_model.obj" str.data])) ∧
    (format = EOutputFormat.GLB ∨ format = EOutputFormat.FBX ∨ format = EOutputFormat.USD →
      export_geometry ndebug E d format node w =
        some (false, d₁, w ++ [Event.error "Unknown output format"])) := by
  refine ⟨?_, ?_, ?_⟩
  · intro hf P hP hprim
    obtain ⟨g, hg, hne⟩ := export_geometry_raw_valid ndebug gdp w P hP hprim
    refine ⟨g, hne, ?_⟩
    unfold export_geometry
    simp only [hsop, hgeo, hf, if_true, hg, StreamWriter.geometry]
  · intro hf hsup str hsave hne
    have hlen : ¬ str.length = 0 := fun h => hne (List.length_eq_zero.1 h)
    unfold export_geometry export_geometry_obj
    simp [hsop, hgeo, hf, hsup, hsave, hlen, StreamWriter.file]
  · intro hf
    unfold export_geometry
    rcases hf with hf | hf | hf <;>
      simp [hsop, hgeo, hf, StreamWriter.error]

/-- Witness for C10: the small engine, for RAW, OBJ and GLB. -/
theorem export_geometry_formats_witness :
    (∃ geo, geo.points ≠ [] ∧
      export_geometry false (demoEngine demoGood) ⟨true, true, true⟩ EOutputFormat.RAW 2 [] =
        some (true, ⟨true, true, true⟩, [] ++ [Event.geometry geo])) ∧
    export_geometry false (demoEngine demoGood) ⟨true, true, true⟩ EOutputFormat.OBJ 2 [] =
      some (true, ⟨true, true, true⟩,
        [] ++ [Event.file "generated_model.obj" ("v 0 0 0" : String).data]) ∧
    export_geometry false (demoEngine demoGood) ⟨true, true, true⟩ EOutputFormat.GLB 2 [] =
      some (false, ⟨true, true, true⟩, [] ++ [Event.error "Unknown output format"]) :=
  ⟨(export_geometry_formats false (demoEngine demoGood) ⟨true, true, true⟩ ⟨true, true, true⟩
      EOutputFormat.RAW 2 2 (demoDetail true) [] rfl rfl).1 rfl
      (fun i => (⟨i⟩, ⟨0⟩, ⟨0⟩)) rfl
      ⟨⟨GA_PRIMPOLY, [(0, 0), (1, 1), (2, 2)]⟩, by simp [demoDetail], rfl, by decide⟩,
    (export_geometry_formats false (demoEngine demoGood) ⟨true, true, true⟩ ⟨true, true, true⟩
      EOutputFormat.OBJ 2 2 (demoDetail true) [] rfl rfl).2.1 rfl rfl "v 0 0 0" rfl
      (by decide),
    (export_geometry_formats false (demoEngine demoGood) ⟨true, true, true⟩ ⟨true, true, true⟩
      EOutputFormat.GLB 2 2 (demoDetail true) [] rfl rfl).2.2 (Or.inl rfl)⟩

end claims

/-! ## Raw export -/

theorem foldl_append_flatMap {α β : Type} (f : α → List β) :
    ∀ (l : List α) (init : List β),
      l.foldl (fun acc x => acc ++ f x) init = init ++ l.flatMap f
  | [], init => by simp
  | x :: xs, init => by
    simp only [List.foldl_cons, List.flatMap_cons]
    rw [foldl_append_flatMap f xs]
    simp

/-- The vertex loop appends the positions of the vertices, in order. -/
theorem push_vertex_foldl_points (gdp : GU_Detail) (P : Nat → UT_Vector3) :
    ∀ (vs : List (Nat × Nat)) (geom : Geometry),
      (vs.foldl (push_vertex gdp P) geom).points =
        geom.points ++ vs.flatMap (vertex_position P)
  | [], geom => by simp
  | v :: vs, geom => by
    simp only [List.foldl_cons, List.flatMap_cons]
    rw [push_vertex_foldl_points gdp P vs]
    simp [push_vertex, vertex_position]

/-- The vertex loop leaves indices and colors alone. -/
theorem push_vertex_foldl_indices (gdp : GU_Detail) (P : Nat → UT_Vector3) :
    ∀ (vs : List (Nat × Nat)) (geom : Geometry),
      (vs.foldl (push_vertex gdp P) geom).indices = geom.indices ∧
      (vs.foldl (push_vertex gdp P) geom).colors = geom.colors
  | [], geom => by simp
  | v :: vs, geom => by
    simp only [List.foldl_cons]
    rw [(push_vertex_foldl_indices gdp P vs _).1, (push_vertex_foldl_indices gdp P vs _).2]
    simp [push_vertex]

/-- The vertex loop appends three normals per vertex if the detail has normals, and none
otherwise. -/
theorem push_vertex_foldl_normals (gdp : GU_Detail) (P : Nat → UT_Vector3) :
    ∀ (vs : List (Nat × Nat)) (geom : Geometry),
      (vs.foldl (push_vertex gdp P) geom).normals.length =
        geom.normals.length + (if gdp.has_normals then 3 * vs.length else 0)
  | [], geom => by simp
  | v :: vs, geom => by
    simp only [List.foldl_cons, List.length_cons]
    rw [push_vertex_foldl_normals gdp P vs]
    unfold push_vertex GU_Detail.has_normals
    rcases h1 : gdp.N_point with _ | a <;> rcases h2 : gdp.N_vertex with _ | b <;>
      simp <;> omega

/-- The vertex loop appends two uvs per vertex if the detail has uvs, and none otherwise. -/
theorem push_vertex_foldl_uvs (gdp : GU_Detail) (P : Nat → UT_Vector3) :
    ∀ (vs : List (Nat × Nat)) (geom : Geometry),
      (vs.foldl (push_vertex gdp P) geom).uvs.length =
        geom.uvs.length + (if gdp.has_uvs then 2 * vs.length else 0)
  | [], geom => by simp
  | v :: vs, geom => by
    simp only [List.foldl_cons, List.length_cons]
    rw [push_vertex_foldl_uvs gdp P vs]
    unfold push_vertex GU_Detail.has_uvs
    rcases h1 : gdp.uv_point with _ | a <;> rcases h2 : gdp.uv_vertex with _ | b <;>
      simp <;> omega

/-- The fan loop appends the triangles `0 .. num_tris - 1`, in order. -/
theorem push_fan_eq (base_index num_tris : Int) (indices : List Int) :
    push_fan base_index num_tris indices =
      indices ++ (List.range num_tris.toNat).flatMap (fan_triangle32 base_index) := by
  unfold push_fan
  exact foldl_append_flatMap (fan_triangle32 base_index) _ _

theorem vertex_position_length (P : Nat → UT_Vector3) (vs : List (Nat × Nat)) :
    (vs.flatMap (vertex_position P)).length = 3 * vs.length := by
  induction vs with
  | nil => simp
  | cons v vs ih =>
    simp only [List.flatMap_cons, List.length_append, ih, List.length_cons]
    simp [vertex_position]
    omega

theorem fan_triangle_length (k : Int) (n : Nat) :
    ((List.range n).flatMap (fan_triangle k)).length = 3 * n := by
  induction n with
  | zero => simp
  | succ n ih =>
    rw [List.range_succ, List.flatMap_append, List.length_append, ih]
    simp [fan_triangle]
    omega

theorem fan_triangle32_length (k : Int) (n : Nat) :
    ((List.range n).flatMap (fan_triangle32 k)).length = 3 * n := by
  induction n with
  | zero => simp
  | succ n ih =>
    rw [List.range_succ, List.flatMap_append, List.length_append, ih]
    simp [fan_triangle32]
    omega

/-- An `int` holds every value from 0 up to `2^31 - 1` unchanged. -/
theorem toInt32_of_range (x : Int) (h0 : 0 ≤ x) (h1 : x < 2147483648) : toInt32 x = x := by
  unfold toInt32
  omega

/-- While the indices stay below `2^31`, the `int` arithmetic of an iteration of the fan
loop gives the triple `(k, k+i+1, k+i+2)`. -/
theorem fan_triangle32_eq (k i : Nat) (h : k + i + 2 < 2147483648) :
    fan_triangle32 (k : Int) i = fan_triangle (k : Int) i := by
  have e0 : add32 (k : Int) 0 = (k : Int) := by
    simp only [add32, toInt32]
    omega
  have e1 : add32 (k : Int) (i : Int) = (k : Int) + (i : Int) := by
    simp only [add32, toInt32]
    omega
  have e2 : add32 ((k : Int) + (i : Int)) 1 = (k : Int) + (i : Int) + 1 := by
    simp only [add32, toInt32]
    omega
  have e3 : add32 ((k : Int) + (i : Int)) 2 = (k : Int) + (i : Int) + 2 := by
    simp only [add32, toInt32]
    omega
  simp only [fan_triangle32, fan_triangle, Int.ofNat_eq_coe, e0, e1, e2, e3]

theorem fan32_flatMap_eq (k m : Nat) (h : k + m + 2 ≤ 2147483648) :
    (List.range m).flatMap (fan_triangle32 (k : Int)) =
      (List.range m).flatMap (fan_triangle (k : Int)) := by
  induction m with
  | zero => simp only [List.range_zero, List.flatMap_nil]
  | succ m ih =>
    rw [List.range_succ, List.flatMap_append, List.flatMap_append, ih (by omega),
      List.flatMap_singleton, List.flatMap_singleton, fan_triangle32_eq k m (by omega)]

/-- Triangle `i` of a fan of `n` triangles sits at the positions `3 i`, `3 i + 1` and
`3 i + 2` of the appended indices. -/
theorem fan_triangle_getElem (k : Int) :
    ∀ (n i : Nat), i < n →
      ((List.range n).flatMap (fan_triangle k))[3 * i]? = some k ∧
      ((List.range n).flatMap (fan_triangle k))[3 * i + 1]? = some (k + (i : Int) + 1) ∧
      ((List.range n).flatMap (fan_triangle k))[3 * i + 2]? = some (k + (i : Int) + 2)
  | 0, i, h => absurd h (Nat.not_lt_zero i)
  | n + 1, i, h => by
    rw [List.range_succ, List.flatMap_append, List.flatMap_singleton]
    have hlen := fan_triangle_length k n
    by_cases hi : i < n
    · obtain ⟨h0, h1, h2⟩ := fan_triangle_getElem k n i hi
      rw [List.getElem?_append_left (by omega), List.getElem?_append_left (by omega),
        List.getElem?_append_left (by omega)]
      exact ⟨h0, h1, h2⟩
    · have hin : i = n := by omega
      subst hin
      rw [List.getElem?_append_right (by omega), List.getElem?_append_right (by omega),
        List.getElem?_append_right (by omega), hlen]
      have e0 : 3 * i - 3 * i = 0 := by omega
      have e1 : 3 * i + 1 - 3 * i = 1 := by omega
      have e2 : 3 * i + 2 - 3 * i = 2 := by omega
      rw [e0, e1, e2]
      simp [fan_triangle]

/-- The body of the primitive loop on a polygon of at least three vertices, whatever the
sizes: the base index and the triangle count are the narrowed values. -/
theorem export_primitive_polygon (ndebug : Bool) (gdp : GU_Detail) (P : Nat → UT_Vector3)
    (geom : Geometry) (prim : GEO_Primitive) (hpoly : prim.typeId = GA_PRIMPOLY)
    (hn : 3 ≤ prim.vertices.length) (h3 : geom.points.length % 3 = 0) :
    export_primitive ndebug gdp P geom prim =
      some { prim.vertices.foldl (push_vertex gdp P) geom with
        indices := (prim.vertices.foldl (push_vertex gdp P) geom).indices ++
          (List.range (toInt32 ((prim.vertices.length : Int) - 2)).toNat).flatMap
            (fan_triangle32 (toInt32 ((geom.points.length / 3 : Nat) : Int))) } := by
  have hlt : ¬ prim.vertices.length < 3 := by omega
  unfold export_primitive
  simp only [hpoly, bne_self_eq_false, Bool.false_eq_true, if_false, hlt, assert_ok, h3,
    beq_self_eq_true, Bool.or_true, if_true, push_fan_eq, Int.ofNat_eq_coe]

/-- The body of the primitive loop on a polygon of at least three vertices, when the
geometry holds at most `2^31` vertices afterwards: nothing is changed by the narrowing. -/
theorem export_primitive_polygon_bounded (ndebug : Bool) (gdp : GU_Detail)
    (P : Nat → UT_Vector3) (geom : Geometry) (prim : GEO_Primitive)
    (hpoly : prim.typeId = GA_PRIMPOLY) (hn : 3 ≤ prim.vertices.length)
    (h3 : geom.points.length % 3 = 0)
    (hbound : geom.points.length / 3 + prim.vertices.length ≤ 2147483648) :
    export_primitive ndebug gdp P geom prim =
      some { prim.vertices.foldl (push_vertex gdp P) geom with
        indices := (prim.vertices.foldl (push_vertex gdp P) geom).indices ++
          (List.range (prim.vertices.length - 2)).flatMap
            (fan_triangle ((geom.points.length / 3 : Nat) : Int)) } := by
  rw [export_primitive_polygon ndebug gdp P geom prim hpoly hn h3]
  have e1 : toInt32 ((prim.vertices.length : Int) - 2) =
      ((prim.vertices.length - 2 : Nat) : Int) := by
    simp only [toInt32]
    omega
  have e2 : toInt32 ((geom.points.length / 3 : Nat) : Int) =
      ((geom.points.length / 3 : Nat) : Int) := by
    simp only [toInt32]
    omega
  rw [e1, e2, Int.toNat_ofNat,
    fan32_flatMap_eq (geom.points.length / 3) (prim.vertices.length - 2) (by omega)]

/-- The body of the primitive loop on any other primitive. -/
theorem export_primitive_skip (ndebug : Bool) (gdp : GU_Detail) (P : Nat → UT_Vector3)
    (geom : Geometry) (prim : GEO_Primitive)
    (h : prim.typeId ≠ GA_PRIMPOLY ∨ prim.vertices.length < 3) :
    export_primitive ndebug gdp P geom prim = some geom := by
  unfold export_primitive
  rcases h with h | h
  · have h' : (prim.typeId != GA_PRIMPOLY) = true := by simpa using h
    simp only [h', if_true]
  · by_cases hp : (prim.typeId != GA_PRIMPOLY) = true
    · simp only [hp, if_true]
    · simp [hp, h]

theorem demoHuge_length : demoHuge.points.length = 6442450944 :=
  List.length_replicate _ _

theorem demoHugeVertices_length : demoHugeVertices.length = 2147483648 :=
  List.length_replicate _ _

/-- C11, as stated, fails: on a geometry that holds `k = 2^31` vertices a triangle is
given the index triple `(-2^31, -2^31 + 1, -2^31 + 2)`, not `(k, k + 1, k + 2)`: the base
index `points.size() / 3` is stored in an `int`. -/
theorem export_primitive_index_wraps :
    demoHuge.points.length = 3 * 2147483648 ∧
    demoTriangle.typeId = GA_PRIMPOLY ∧ demoTriangle.vertices.length = 3 ∧
    (export_primitive false (demoDetail true) demoP demoHuge demoTriangle).map
      (fun g => g.indices) = some [-2147483648, -2147483647, -2147483646] := by
  refine ⟨demoHuge_length, rfl, rfl, ?_⟩
  have h3 : demoHuge.points.length % 3 = 0 := by rw [demoHuge_length]
  rw [export_primitive_polygon false (demoDetail true) demoP demoHuge demoTriangle rfl
    (by decide) h3]
  simp only [Option.map_some', (push_vertex_foldl_indices _ _ _ _).1, demoHuge_length]
  decide

/-- C11, amended: the body of the primitive loop of `export_geometry_raw`, run on a
geometry that holds `k` vertices (`points.size() == 3k`). For a polygon of `n >= 3`
vertices with `k + n <= 2^31` it returns, having appended to `points` the positions of the
`n` vertices in vertex order and to `indices` exactly `n - 2` triangles, the `i`-th being
`(k, k+i+1, k+i+2)` in that order. For a primitive that is not a polygon or has fewer than
3 vertices it returns the geometry unchanged. -/
theorem export_primitive_fan (ndebug : Bool) (gdp : GU_Detail) (P : Nat → UT_Vector3)
    (geom : Geometry) (prim : GEO_Primitive) (k : Nat)
    (hk : geom.points.length = 3 * k) :
    (prim.typeId = GA_PRIMPOLY → 3 ≤ prim.vertices.length →
      k + prim.vertices.length ≤ 2147483648 →
      ∃ g, export_primitive ndebug gdp P geom prim = some g ∧
        g.points = geom.points ++ prim.vertices.flatMap (vertex_position P) ∧
        g.points.length = 3 * (k + prim.vertices.length) ∧
        g.indices = geom.indices ++
          (List.range (prim.vertices.length - 2)).flatMap (fan_triangle (k : Int)) ∧
        g.indices.length = geom.indices.length + 3 * (prim.vertices.length - 2) ∧
        ∀ i : Nat, i < prim.vertices.length - 2 →
          g.indices[geom.indices.length + 3 * i]? = some (k : Int) ∧
          g.indices[geom.indices.length + 3 * i + 1]? = some ((k : Int) + (i : Int) + 1) ∧
          g.indices[geom.indices.length + 3 * i + 2]? = some ((k : Int) + (i : Int) + 2)) ∧
    ((prim.typeId ≠ GA_PRIMPOLY ∨ prim.vertices.length < 3) →
      export_primitive ndebug gdp P geom prim = some geom) := by
  constructor
  · intro hpoly hn hbound
    have h3 : geom.points.length % 3 = 0 := by omega
    have hbase : geom.points.length / 3 = k := by omega
    have hexp := export_primitive_polygon_bounded ndebug gdp P geom prim hpoly hn h3
      (by omega)
    rw [hbase] at hexp
    refine ⟨_, hexp, push_vertex_foldl_points gdp P _ _, ?_, ?_, ?_, ?_⟩
    · show (prim.vertices.foldl (push_vertex gdp P) geom).points.length = _
      rw [push_vertex_foldl_points, List.length_append, vertex_position_length, hk]
      omega
    · show (prim.vertices.foldl (push_vertex gdp P) geom).indices ++ _ = _
      rw [(push_vertex_foldl_indices gdp P _ _).1]
    · show ((prim.vertices.foldl (push_vertex gdp P) geom).indices ++ _).length = _
      rw [(push_vertex_foldl_indices gdp P _ _).1, List.length_append, fan_triangle_length]
    · intro i hi
      show ((prim.vertices.foldl (push_vertex gdp P) geom).indices ++ _)[_]? = _ ∧
        ((prim.vertices.foldl (push_vertex gdp P) geom).indices ++ _)[_]? = _ ∧
        ((prim.vertices.foldl (push_vertex gdp P) geom).indices ++ _)[_]? = _
      rw [(push_vertex_foldl_indices gdp P _ _).1]
      obtain ⟨h0, h1, h2⟩ := fan_triangle_getElem (k : Int) _ i hi
      rw [List.getElem?_append_right (by omega), List.getElem?_append_right (by omega),
        List.getElem?_append_right (by omega)]
      have e0 : geom.indices.length + 3 * i - geom.indices.length = 3 * i := by omega
      have e1 : geom.indices.length + 3 * i + 1 - geom.indices.length = 3 * i + 1 := by omega
      have e2 : geom.indices.length + 3 * i + 2 - geom.indices.length = 3 * i + 2 := by omega
      rw [e0, e1, e2]
      exact ⟨h0, h1, h2⟩
  · exact export_primitive_skip ndebug gdp P geom prim

/-- Witness for C11: a quadrilateral appended to a geometry that holds the three vertices
of a triangle gives the triangles `(3, 4, 5)` and `(3, 5, 6)`; a curve appends nothing. -/
theorem export_primitive_fan_witness :
    demoGeometry.points.length = 3 * 3 ∧
    (export_primitive false (demoDetail true) demoP demoGeometry demoQuad).map
      (fun g => g.indices) = some [0, 1, 2, 3, 4, 5, 3, 5, 6] ∧
    (∃ g, export_primitive false (demoDetail true) demoP demoGeometry demoQuad = some g ∧
      g.points = demoGeometry.points ++ demoQuad.vertices.flatMap (vertex_position demoP) ∧
      g.points.length = 3 * (3 + demoQuad.vertices.length) ∧
      g.indices = demoGeometry.indices ++
        (List.range (demoQuad.vertices.length - 2)).flatMap (fan_triangle ((3 : Nat) : Int)) ∧
      g.indices.length = demoGeometry.indices.length + 3 * (demoQuad.vertices.length - 2) ∧
      ∀ i : Nat, i < demoQuad.vertices.length - 2 →
        g.indices[demoGeometry.indices.length + 3 * i]? = some ((3 : Nat) : Int) ∧
        g.indices[demoGeometry.indices.length + 3 * i + 1]? =
          some (((3 : Nat) : Int) + (i : Int) + 1) ∧
        g.indices[demoGeometry.indices.length + 3 * i + 2]? =
          some (((3 : Nat) : Int) + (i : Int) + 2)) ∧
    export_primitive false (demoDetail true) demoP demoGeometry demoCurve = some demoGeometry :=
  ⟨rfl, by decide,
    (export_primitive_fan false (demoDetail true) demoP demoGeometry demoQuad 3 rfl).1 rfl
      (by decide) (by decide),
    (export_primitive_fan false (demoDetail true) demoP demoGeometry demoCurve 3 rfl).2
      (Or.inl (by decide))⟩

theorem fan_triangle_mem (k : Int) (n : Nat) (x : Int)
    (hx : x ∈ (List.range n).flatMap (fan_triangle k)) :
    k ≤ x ∧ x < k + (n : Int) + 2 := by
  obtain ⟨i, hi, hmem⟩ := List.mem_flatMap.1 hx
  have hin : i < n := List.mem_range.1 hi
  simp only [fan_triangle, List.mem_cons, List.mem_singleton, List.not_mem_nil, or_false]
    at hmem
  rcases hmem with rfl | rfl | rfl <;> omega

/-- The empty geometry satisfies the loop invariant. -/
theorem RawInvariant_empty (gdp : GU_Detail) : RawInvariant gdp Geometry.empty := by
  unfold RawInvariant Geometry.empty
  simp

/-- The body of the primitive loop preserves the loop invariant, whatever the sizes. -/
theorem export_primitive_invariant (ndebug : Bool) (gdp : GU_Detail) (P : Nat → UT_Vector3)
    (geom g : Geometry) (prim : GEO_Primitive) (hinv : RawInvariant gdp geom)
    (h : export_primitive ndebug gdp P geom prim = some g) : RawInvariant gdp g := by
  by_cases hq : prim.typeId = GA_PRIMPOLY ∧ 3 ≤ prim.vertices.length
  · obtain ⟨hpoly, hn⟩ := hq
    obtain ⟨h3, hi3, hnorm, huv, hcol⟩ := hinv
    rw [export_primitive_polygon ndebug gdp P geom prim hpoly hn h3, Option.some.injEq] at h
    subst h
    have hp := push_vertex_foldl_points gdp P prim.vertices geom
    have hpl : (prim.vertices.foldl (push_vertex gdp P) geom).points.length =
        geom.points.length + 3 * prim.vertices.length := by
      rw [hp, List.length_append, vertex_position_length]
    have hidx := (push_vertex_foldl_indices gdp P prim.vertices geom).1
    have hcl := (push_vertex_foldl_indices gdp P prim.vertices geom).2
    have hnl := push_vertex_foldl_normals gdp P prim.vertices geom
    have hul := push_vertex_foldl_uvs gdp P prim.vertices geom
    refine ⟨?_, ?_, ?_, ?_, ?_⟩
    · show (prim.vertices.foldl (push_vertex gdp P) geom).points.length % 3 = 0
      omega
    · show ((prim.vertices.foldl (push_vertex gdp P) geom).indices ++ _).length % 3 = 0
      rw [List.length_append, fan_triangle32_length, hidx]
      omega
    · show (prim.vertices.foldl (push_vertex gdp P) geom).normals.length =
        (if gdp.has_normals then
          (prim.vertices.foldl (push_vertex gdp P) geom).points.length else 0)
      rw [hnl, hnorm, hpl]
      split <;> rfl
    · show (prim.vertices.foldl (push_vertex gdp P) geom).uvs.length =
        (if gdp.has_uvs then
          2 * ((prim.vertices.foldl (push_vertex gdp P) geom).points.length / 3) else 0)
      rw [hul, huv, hpl]
      split
      · omega
      · rfl
    · show (prim.vertices.foldl (push_vertex gdp P) geom).colors = []
      rw [hcl]
      exact hcol
  · have hskip : prim.typeId ≠ GA_PRIMPOLY ∨ prim.vertices.length < 3 := by
      by_cases hpoly : prim.typeId = GA_PRIMPOLY
      · exact Or.inr (by
          by_contra hge
          exact hq ⟨hpoly, by omega⟩)
      · exact Or.inl hpoly
    rw [export_primitive_skip ndebug gdp P geom prim hskip, Option.some.injEq] at h
    subst h
    exact hinv

/-- The body of the primitive loop never takes points away. -/
theorem export_primitive_points_le (ndebug : Bool) (gdp : GU_Detail) (P : Nat → UT_Vector3)
    (geom g : Geometry) (prim : GEO_Primitive) (h3 : geom.points.length % 3 = 0)
    (h : export_primitive ndebug gdp P geom prim = some g) :
    geom.points.length ≤ g.points.length := by
  obtain ⟨g', hg', _, hle, _⟩ := export_primitive_some ndebug gdp P geom prim h3
  rw [hg', Option.some.injEq] at h
  subst h
  exact hle

/-- The body of the primitive loop keeps every index in range, when the geometry holds at
most `2^31` vertices afterwards. -/
theorem export_primitive_in_range (ndebug : Bool) (gdp : GU_Detail) (P : Nat → UT_Vector3)
    (geom g : Geometry) (prim : GEO_Primitive) (h3 : geom.points.length % 3 = 0)
    (hrange : IndicesInRange geom)
    (h : export_primitive ndebug gdp P geom prim = some g)
    (hbound : g.points.length / 3 ≤ 2147483648) : IndicesInRange g := by
  by_cases hq : prim.typeId = GA_PRIMPOLY ∧ 3 ≤ prim.vertices.length
  · obtain ⟨hpoly, hn⟩ := hq
    have hpl : (prim.vertices.foldl (push_vertex gdp P) geom).points.length =
        geom.points.length + 3 * prim.vertices.length := by
      rw [push_vertex_foldl_points, List.length_append, vertex_position_length]
    have hidx := (push_vertex_foldl_indices gdp P prim.vertices geom).1
    have hgp : g.points.length = geom.points.length + 3 * prim.vertices.length := by
      rw [export_primitive_polygon ndebug gdp P geom prim hpoly hn h3, Option.some.injEq] at h
      subst h
      exact hpl
    have hb : geom.points.length / 3 + prim.vertices.length ≤ 2147483648 := by omega
    rw [export_primitive_polygon_bounded ndebug gdp P geom prim hpoly hn h3 hb,
      Option.some.injEq] at h
    subst h
    intro x hx
    show 0 ≤ x ∧
      x < Int.ofNat ((prim.vertices.foldl (push_vertex gdp P) geom).points.length / 3)
    have hdiv : (prim.vertices.foldl (push_vertex gdp P) geom).points.length / 3 =
        geom.points.length / 3 + prim.vertices.length := by omega
    rw [hdiv]
    have hx' : x ∈ geom.indices ++ (List.range (prim.vertices.length - 2)).flatMap
        (fan_triangle ((geom.points.length / 3 : Nat) : Int)) := by
      rw [← hidx]
      exact hx
    rcases List.mem_append.1 hx' with hold | hnew
    · have := hrange x hold
      simp only [Int.ofNat_eq_coe] at this ⊢
      push_cast
      omega
    · have := fan_triangle_mem _ _ x hnew
      simp only [Int.ofNat_eq_coe]
      push_cast
      push_cast at this
      omega
  · have hskip : prim.typeId ≠ GA_PRIMPOLY ∨ prim.vertices.length < 3 := by
      by_cases hpoly : prim.typeId = GA_PRIMPOLY
      · exact Or.inr (by
          by_contra hge
          exact hq ⟨hpoly, by omega⟩)
      · exact Or.inl hpoly
    rw [export_primitive_skip ndebug gdp P geom prim hskip, Option.some.injEq] at h
    subst h
    exact hrange

/-- The primitive loop preserves the loop invariant and never takes points away. -/
theorem export_primitives_invariant (ndebug : Bool) (gdp : GU_Detail)
    (P : Nat → UT_Vector3) :
    ∀ (prims : List GEO_Primitive) (geom g : Geometry), RawInvariant gdp geom →
      export_primitives ndebug gdp P prims geom = some g →
      RawInvariant gdp g ∧ geom.points.length ≤ g.points.length
  | [], geom, g, hinv, h => by
    simp only [export_primitives, Option.some.injEq] at h
    subst h
    exact ⟨hinv, le_refl _⟩
  | prim :: rest, geom, g, hinv, h => by
    simp only [export_primitives] at h
    rcases h1 : export_primitive ndebug gdp P geom prim with _ | g₁
    · rw [h1] at h
      exact absurd h (by simp)
    · rw [h1] at h
      obtain ⟨hi, hle⟩ := export_primitives_invariant ndebug gdp P rest g₁ g
        (export_primitive_invariant ndebug gdp P geom g₁ prim hinv h1) h
      exact ⟨hi, le_trans (export_primitive_points_le ndebug gdp P geom g₁ prim hinv.1 h1)
        hle⟩

/-- The primitive loop keeps every index in range, when the geometry holds at most `2^31`
vertices at the end. -/
theorem export_primitives_in_range (ndebug : Bool) (gdp : GU_Detail)
    (P : Nat → UT_Vector3) :
    ∀ (prims : List GEO_Primitive) (geom g : Geometry), RawInvariant gdp geom →
      IndicesInRange geom → export_primitives ndebug gdp P prims geom = some g →
      g.points.length / 3 ≤ 2147483648 → IndicesInRange g
  | [], geom, g, _, hrange, h, _ => by
    simp only [export_primitives, Option.some.injEq] at h
    subst h
    exact hrange
  | prim :: rest, geom, g, hinv, hrange, h, hbound => by
    simp only [export_primitives] at h
    rcases h1 : export_primitive ndebug gdp P geom prim with _ | g₁
    · rw [h1] at h
      exact absurd h (by simp)
    · rw [h1] at h
      have hinv₁ := export_primitive_invariant ndebug gdp P geom g₁ prim hinv h1
      have hle := (export_primitives_invariant ndebug gdp P rest g₁ g hinv₁ h).2
      exact export_primitives_in_range ndebug gdp P rest g₁ g hinv₁
        (export_primitive_in_range ndebug gdp P geom g₁ prim hinv.1 hrange h1
          (le_trans (Nat.div_le_div_right hle) hbound)) h hbound

/-- The body of the primitive loop on a polygon of at least three vertices: the sizes
afterwards and the indices appended, whatever the sizes before. -/
theorem export_primitive_polygon_sizes (ndebug : Bool) (gdp : GU_Detail)
    (P : Nat → UT_Vector3) (geom : Geometry) (prim : GEO_Primitive)
    (hpoly : prim.typeId = GA_PRIMPOLY) (hn : 3 ≤ prim.vertices.length)
    (h3 : geom.points.length % 3 = 0) :
    ∃ g, export_primitive ndebug gdp P geom prim = some g ∧
      g.points.length = geom.points.length + 3 * prim.vertices.length ∧
      g.indices = geom.indices ++
        (List.range (toInt32 ((prim.vertices.length : Int) - 2)).toNat).flatMap
          (fan_triangle32 (toInt32 ((geom.points.length / 3 : Nat) : Int))) := by
  refine ⟨_, export_primitive_polygon ndebug gdp P geom prim hpoly hn h3, ?_, ?_⟩
  · show (prim.vertices.foldl (push_vertex gdp P) geom).points.length = _
    rw [push_vertex_foldl_points, List.length_append, vertex_position_length]
  · show (prim.vertices.foldl (push_vertex gdp P) geom).indices ++ _ = _
    rw [(push_vertex_foldl_indices gdp P _ _).1]

/-- The primitive loop over two primitives. -/
theorem export_primitives_two (ndebug : Bool) (gdp : GU_Detail) (P : Nat → UT_Vector3)
    (p₁ p₂ : GEO_Primitive) (geom g₁ g₂ : Geometry)
    (h1 : export_primitive ndebug gdp P geom p₁ = some g₁)
    (h2 : export_primitive ndebug gdp P g₁ p₂ = some g₂) :
    export_primitives ndebug gdp P [p₁, p₂] geom = some g₂ := by
  simp only [export_primitives, h1, h2]

/-- The raw export returns true with the geometry the primitive loop leaves, when that
holds a point. -/
theorem export_geometry_raw_of_primitives (ndebug : Bool) (gdp : GU_Detail)
    (P : Nat → UT_Vector3) (geom g₁ : Geometry) (w : StreamWriter) (hP : gdp.P = some P)
    (hprims : export_primitives ndebug gdp P gdp.primitives geom = some g₁)
    (hne : g₁.points.length ≠ 0) :
    export_geometry_raw ndebug gdp geom w = some (true, g₁, w) := by
  unfold export_geometry_raw
  rw [hP]
  dsimp only
  rw [hprims]
  dsimp only
  have hz : (g₁.points.length == 0) = false := by simpa using hne
  rw [hz]
  rfl

/-- C12, as stated, fails: for a detail of a polygon of `2^31` vertices followed by a
triangle, `export_geometry_raw` on an empty geometry returns true and the result holds the
index `-2^31`: the base index of the triangle, `points.size() / 3 = 2^31`, is stored in an
`int`. -/
theorem export_geometry_raw_index_negative :
    ∃ g, export_geometry_raw false demoHugeDetail Geometry.empty [] = some (true, g, []) ∧
      g.points.length = 3 * 2147483651 ∧ (-2147483648 : Int) ∈ g.indices := by
  have e₀ : Geometry.empty.points.length = 0 := rfl
  have e₁ : demoHugePolygon.vertices.length = 2147483648 := demoHugeVertices_length
  have hn₁ : 3 ≤ demoHugePolygon.vertices.length := by
    rw [e₁]
    omega
  obtain ⟨g₁, h1, hp₁, _⟩ := export_primitive_polygon_sizes false demoHugeDetail demoP
    Geometry.empty demoHugePolygon rfl hn₁ rfl
  have hlen₁ : g₁.points.length = 6442450944 := by
    rw [hp₁, e₀, e₁]
  have h3 : g₁.points.length % 3 = 0 := by
    rw [hlen₁]
  obtain ⟨g₂, h2, hp₂, hi₂⟩ := export_primitive_polygon_sizes false demoHugeDetail demoP
    g₁ demoTriangle rfl (by decide) h3
  have hlen₂ : g₂.points.length = 3 * 2147483651 := by
    rw [hp₂, hlen₁]
    rfl
  refine ⟨g₂, export_geometry_raw_of_primitives false demoHugeDetail demoP Geometry.empty
    g₂ [] rfl (export_primitives_two false demoHugeDetail demoP demoHugePolygon demoTriangle
      Geometry.empty g₁ g₂ h1 h2) (by rw [hlen₂]; omega), hlen₂, ?_⟩
  rw [hi₂, hlen₁]
  apply List.mem_append_right
  decide

/-- C12, amended: when `export_geometry_raw`, run on an empty geometry, returns true, then
`points` is non-empty and its size is a multiple of 3, the size of `indices` is a multiple
of 3, `normals` is empty or has `points.size()` entries, `uvs` is empty or has
`2 * (points.size() / 3)` entries, `colors` is empty, and, when the result holds at most
`2^31` vertices (`points.size() / 3 <= 2^31`), every index `i` satisfies
`0 <= i < points.size() / 3`. The run with assertions enabled returns for every detail, so
the assertion `points.size() % 3 == 0` fails at no primitive. -/
theorem export_geometry_raw_well_formed (ndebug : Bool) (gdp : GU_Detail)
    (w w' : StreamWriter) (g : Geometry)
    (h : export_geometry_raw ndebug gdp Geometry.empty w = some (true, g, w')) :
    (∃ r, export_geometry_raw false gdp Geometry.empty w = some r) ∧
    g.points ≠ [] ∧
    g.points.length % 3 = 0 ∧
    g.indices.length % 3 = 0 ∧
    (g.points.length / 3 ≤ 2147483648 →
      ∀ i ∈ g.indices, 0 ≤ i ∧ i < ((g.points.length / 3 : Nat) : Int)) ∧
    (g.normals = [] ∨ g.normals.length = g.points.length) ∧
    (g.uvs = [] ∨ g.uvs.length = 2 * (g.points.length / 3)) ∧
    g.colors = [] := by
  have htotal : ∃ r, export_geometry_raw false gdp Geometry.empty w = some r := by
    obtain ⟨ok, g₀, w₀, hr, _⟩ := export_geometry_raw_cases false gdp Geometry.empty w rfl
    exact ⟨_, hr⟩
  unfold export_geometry_raw at h
  rcases hP : gdp.P with _ | P
  · rw [hP] at h
    simp at h
  · rw [hP] at h
    dsimp only at h
    rcases hprims : export_primitives ndebug gdp P gdp.primitives Geometry.empty with _ | g₁
    · rw [hprims] at h
      exact absurd h (by simp)
    · rw [hprims] at h
      dsimp only at h
      by_cases hz : g₁.points.length = 0
      · simp [hz] at h
      · have hz' : (g₁.points.length == 0) = false := by simpa using hz
        simp only [hz', Bool.false_eq_true, if_false, Option.some.injEq, Prod.mk.injEq,
          true_and] at h
        obtain ⟨rfl, _⟩ := h
        obtain ⟨h3, hi3, hnorm, huv, hcol⟩ :=
          (export_primitives_invariant ndebug gdp P gdp.primitives Geometry.empty g₁
            (RawInvariant_empty gdp) hprims).1
        have hempty : IndicesInRange Geometry.empty := by
          intro i hi
          exact absurd hi (List.not_mem_nil i)
        refine ⟨htotal, ?_, h3, hi3, ?_, ?_, ?_, hcol⟩
        · intro hnil
          exact hz (by rw [hnil]; rfl)
        · intro hbound
          exact export_primitives_in_range ndebug gdp P gdp.primitives Geometry.empty g₁
            (RawInvariant_empty gdp) hempty hprims hbound
        · by_cases hn : gdp.has_normals = true
          · exact Or.inr (by rw [hnorm, if_pos hn])
          · exact Or.inl (List.length_eq_zero.1 (by rw [hnorm, if_neg hn]))
        · by_cases hu : gdp.has_uvs = true
          · exact Or.inr (by rw [huv, if_pos hu])
          · exact Or.inl (List.length_eq_zero.1 (by rw [huv, if_neg hu]))

/-- Witness for C12: the detail of the small engine, one triangle, three vertices. -/
theorem export_geometry_raw_well_formed_witness :
    export_geometry_raw false (demoDetail true) Geometry.empty [] =
      some (true, demoGeometry, []) ∧
    demoGeometry.points.length / 3 ≤ 2147483648 ∧
    ((∃ r, export_geometry_raw false (demoDetail true) Geometry.empty [] = some r) ∧
      demoGeometry.points ≠ [] ∧
      demoGeometry.points.length % 3 = 0 ∧
      demoGeometry.indices.length % 3 = 0 ∧
      (demoGeometry.points.length / 3 ≤ 2147483648 →
        ∀ i ∈ demoGeometry.indices,
          0 ≤ i ∧ i < ((demoGeometry.points.length / 3 : Nat) : Int)) ∧
      (demoGeometry.normals = [] ∨
        demoGeometry.normals.length = demoGeometry.points.length) ∧
      (demoGeometry.uvs = [] ∨
        demoGeometry.uvs.length = 2 * (demoGeometry.points.length / 3)) ∧
      demoGeometry.colors = []) :=
  ⟨by decide, by decide,
    export_geometry_raw_well_formed false (demoDetail true) [] [] demoGeometry (by decide)⟩

end Scenetalk
